import Mathlib

/-!
Verification development for the NexusDrive delivery ETL pipeline.

The pipeline's core logic (weather/traffic label classifiers, the
weather asof-join enrichment, schema alignment of the two delivery
sources) is shallowly embedded below.  Tabular data is modelled as
association lists of named columns of cells; timestamps are modelled as
rational epoch seconds, with `Cell.null` standing for pandas NaN/NaT and
`Cell.str` for values that do not parse as timestamps.
-/

set_option maxHeartbeats 1000000

namespace NexusDrive

/-! ### Weather label classifier (src/dags/mock/weather_generator.py) -/

/-- One record as seen by `WeatherMockGenerator.generate_label`.  Each field
is the value of the corresponding measurement column; `none` means the
column is absent from the record (the source reads fields with
`row.get(name, None)`, and `is_day ()` with `row.get(name, 1)`). -/
structure WeatherRow where
  rh : Option ℚ
  cc_low : Option ℚ
  cc_total : Option ℚ
  ws : Option ℚ
  precip : Option ℚ
  is_day : Option ℚ
  deriving DecidableEq

/-- Python truthiness of an optional numeric value: `None` and `0` are
falsy, every other number is truthy. -/
def truthy (x : Option ℚ) : Bool :=
  match x with
  | none => false
  | some v => v != 0

/-- `WeatherMockGenerator.generate_label`.  Each Python rule is a guard
(`if rh and cc_low and ws is not None:`) followed by a threshold test; a
guard that fails falls through to the next rule, so guard and test are
conjoined here.  A missing `is_day ()` column defaults to `1`. -/
def generate_label (row : WeatherRow) : String :=
  let rh := row.rh
  let cc_low := row.cc_low
  let cc_total := row.cc_total
  let ws := row.ws
  let precip := row.precip
  let is_day : ℚ := row.is_day.getD 1
  if truthy rh && truthy cc_low && ws.isSome &&
      decide (rh.getD 0 > 90) && decide (cc_low.getD 0 > 80) && decide (ws.getD 0 < 2) then
    "Fog"
  else if truthy ws && precip.isSome &&
      decide (ws.getD 0 > 12) && decide (precip.getD 0 > 2) then
    "Stormy"
  else if truthy ws && precip.isSome && rh.isSome &&
      decide (ws.getD 0 > 10) && decide (precip.getD 0 < 1/10) && decide (rh.getD 0 < 40) then
    "Sandstorms"
  else if truthy ws && precip.isSome &&
      decide (6 ≤ ws.getD 0) && decide (ws.getD 0 ≤ 12) && decide (precip.getD 0 < 1) then
    "Windy"
  else if truthy cc_total && precip.isSome &&
      decide (cc_total.getD 0 > 70) && decide (precip.getD 0 < 1) then
    "Cloudy"
  else if cc_total.isSome && decide (cc_total.getD 0 < 30) && decide (is_day = 1) then
    "Sunny"
  else
    "Cloudy"

/-- The abstract rule names of the spec, in its priority order. -/
inductive RuleLabel where
  | fog | stormy | sandstorm | windy | cloudy | sunny
  deriving DecidableEq

/-- The string the source emits for each rule (note the plural
"Sandstorms" in the source). -/
def ruleString : RuleLabel → String
  | .fog => "Fog"
  | .stormy => "Stormy"
  | .sandstorm => "Sandstorms"
  | .windy => "Windy"
  | .cloudy => "Cloudy"
  | .sunny => "Sunny"

/-- Which spec rule a label string emitted by the source corresponds to. -/
def codeLabelToRule (s : String) : Option RuleLabel :=
  if s = "Fog" then some .fog
  else if s = "Stormy" then some .stormy
  else if s = "Sandstorms" then some .sandstorm
  else if s = "Windy" then some .windy
  else if s = "Cloudy" then some .cloudy
  else if s = "Sunny" then some .sunny
  else none

/-- Guarded comparison on an optional operand: false when the operand is
missing ("rule not applicable"). -/
def oGT (x : Option ℚ) (c : ℚ) : Bool :=
  match x with
  | none => false
  | some v => decide (v > c)

/-- See `oGT`. -/
def oLT (x : Option ℚ) (c : ℚ) : Bool :=
  match x with
  | none => false
  | some v => decide (v < c)

/-- See `oGT`. -/
def oGE (x : Option ℚ) (c : ℚ) : Bool :=
  match x with
  | none => false
  | some v => decide (v ≥ c)

/-- See `oGT`. -/
def oLE (x : Option ℚ) (c : ℚ) : Bool :=
  match x with
  | none => false
  | some v => decide (v ≤ c)

/-- See `oGT`. -/
def oEQ (x : Option ℚ) (c : ℚ) : Bool :=
  match x with
  | none => false
  | some v => decide (v = c)

/-- Modelled from the spec: the weather rules exactly as the claim words
them — rules evaluated in priority order Fog, Stormy, Sandstorm, Windy,
Cloudy, Sunny with the stated thresholds, first match wins, ANY rule with
a missing operand (including the day indicator of the Sunny rule) is
skipped, default Cloudy. -/
def specLabelClaimed (r : WeatherRow) : RuleLabel :=
  if oGT r.rh 90 && oGT r.cc_low 80 && oLT r.ws 2 then .fog
  else if oGT r.ws 12 && oGT r.precip 2 then .stormy
  else if oGT r.ws 10 && oLT r.precip (1/10) && oLT r.rh 40 then .sandstorm
  else if oGE r.ws 6 && oLE r.ws 12 && oLT r.precip 1 then .windy
  else if oGT r.cc_total 70 && oLT r.precip 1 then .cloudy
  else if oLT r.cc_total 30 && oEQ r.is_day 1 then .sunny
  else .cloudy

/-- The amended rule semantics: as `specLabelClaimed`, except that a
missing day indicator defaults to 1 (daytime), so the Sunny rule remains
applicable when `is_day ()` is absent — which is what the source does. -/
def specLabelAmended (r : WeatherRow) : RuleLabel :=
  if oGT r.rh 90 && oGT r.cc_low 80 && oLT r.ws 2 then .fog
  else if oGT r.ws 12 && oGT r.precip 2 then .stormy
  else if oGT r.ws 10 && oLT r.precip (1/10) && oLT r.rh 40 then .sandstorm
  else if oGE r.ws 6 && oLE r.ws 12 && oLT r.precip 1 then .windy
  else if oGT r.cc_total 70 && oLT r.precip 1 then .cloudy
  else if oLT r.cc_total 30 && decide (r.is_day.getD 1 = 1) then .sunny
  else .cloudy

/-! ### Traffic label classifier (src/dags/mock/traffic_generator.py) -/

/-- The dynamically-typed value handed to `TrafficMockGenerator._map_traffic`:
a string, a pandas Timestamp (epoch seconds; `.time()` is modelled by
reduction mod 86400), or anything else (NaT, numbers, None, ...). -/
inductive TimeInput where
  | strVal (s : String)
  | tsVal (epoch : ℚ)
  | otherVal
  deriving DecidableEq

/-- Seconds-of-day of an epoch timestamp (pandas `Timestamp.time()`). -/
def todOf (q : ℚ) : ℚ := q - 86400 * (⌊q / 86400⌋ : ℤ)

/-- Days per month in year 1900 (strptime with no year defaults to 1900,
which is not a leap year). -/
def daysInMonth (m : Nat) : Nat :=
  [31, 28, 31, 30, 31, 30, 31, 31, 30, 31, 30, 31].getD (m - 1) 0

/-- A 1- or 2-digit decimal field, as accepted by strptime. -/
def parseNat12 (s : String) : Option Nat :=
  if 1 ≤ s.length ∧ s.length ≤ 2 then s.toNat? else none

/-- Model of Python `datetime.strptime(s, m-d H:M:S pattern).time()`:
month/day/hour/minute/second fields with the usual range checks; the
result is the seconds-of-day.  Any failure yields `none` (the source
catches the exception). -/
def strptimeTime (s : String) : Option ℚ :=
  match s.splitOn " " with
  | [md, hms] =>
    match md.splitOn "-", hms.splitOn ":" with
    | [ms, ds], [hs, mins, ss] =>
      match parseNat12 ms, parseNat12 ds, parseNat12 hs, parseNat12 mins, parseNat12 ss with
      | some m, some d, some h, some mi, some sec =>
        if 1 ≤ m ∧ m ≤ 12 ∧ 1 ≤ d ∧ d ≤ daysInMonth m ∧ h ≤ 23 ∧ mi ≤ 59 ∧ sec ≤ 59 then
          some ((h * 3600 + mi * 60 + sec : Nat) : ℚ)
        else none
      | _, _, _, _, _ => none
    | _, _ => none
  | _ => none

/-- `TrafficMockGenerator._map_traffic`: strings are parsed with strptime
(failure yields Medium), Timestamps contribute their time-of-day, any
other value yields Medium; then the first matching time-of-day bucket
wins. -/
def map_traffic (v : TimeInput) : String :=
  let t? : Option ℚ :=
    match v with
    | .strVal s => strptimeTime s
    | .tsVal q => some (todOf q)
    | .otherVal => none
  match t? with
  | none => "Medium"
  | some t =>
    if 7 * 3600 ≤ t ∧ t ≤ 9 * 3600 then "High"
    else if 17 * 3600 ≤ t ∧ t ≤ 19 * 3600 then "Jam"
    else if 22 * 3600 ≤ t ∨ t ≤ 5 * 3600 then "Low"
    else "Medium"

/-- Modelled from the claim: a time with 07:00:00 ≤ t ≤ 09:00:00 (both
ends inclusive) yields High, otherwise 17:00:00 ≤ t ≤ 19:00:00 yields
Jam, otherwise t ≥ 22:00:00 or t ≤ 05:00:00 yields Low, otherwise
Medium; an input that is neither a timestamp nor a string in the
expected pattern yields Medium. -/
def trafficSpecClaimed (v : TimeInput) : String :=
  match v with
  | .otherVal => "Medium"
  | .strVal s =>
    match strptimeTime s with
    | none => "Medium"
    | some t => trafficBucketClaimed t
  | .tsVal q => trafficBucketClaimed (todOf q)
where
  /-- The claim's time-of-day buckets, first match wins. -/
  trafficBucketClaimed (t : ℚ) : String :=
    if 7 * 3600 ≤ t ∧ t ≤ 9 * 3600 then "High"
    else if 17 * 3600 ≤ t ∧ t ≤ 19 * 3600 then "Jam"
    else if 22 * 3600 ≤ t ∨ t ≤ 5 * 3600 then "Low"
    else "Medium"

/-! ### Tabular model

A pandas DataFrame is modelled as an association list of named columns.
A cell is null (NaN/NaT), a number (also standing for a parsed
timestamp, as rational epoch seconds), or a string (standing for text
that does not parse as a timestamp). -/

inductive Cell where
  | null
  | num (q : ℚ)
  | str (s : String)
  deriving DecidableEq

/-- Whether a cell is null (pandas `isna`). -/
def isNull : Cell → Bool
  | .null => true
  | _ => false

/-- The numeric (timestamp) content of a cell, if any. -/
def cellQ : Cell → Option ℚ
  | .num q => some q
  | _ => none

/-- Numeric content with default 0 (used only where nulls were already
dropped). -/
def cellQD (c : Cell) : ℚ := (cellQ c).getD 0

/-- A DataFrame: named columns in order. -/
structure Df where
  cols : List (String × List Cell)
  deriving DecidableEq

instance {e a : Type} [DecidableEq e] [DecidableEq a] : DecidableEq (Except e a) :=
  fun x y =>
    match x, y with
    | .ok u, .ok v =>
      if h : u = v then isTrue (by rw [h]) else
        isFalse (fun he => h (by injection he))
    | .error u, .error v =>
      if h : u = v then isTrue (by rw [h]) else
        isFalse (fun he => h (by injection he))
    | .ok u, .error v => isFalse (fun he => Except.noConfusion he)
    | .error u, .ok v => isFalse (fun he => Except.noConfusion he)

/-- Column names, in order. -/
def namesOf (df : Df) : List String := df.cols.map Prod.fst

/-- The first column with the given name, if present. -/
def lookupCol (df : Df) (c : String) : Option (List Cell) :=
  (df.cols.find? (fun p => p.1 == c)).map Prod.snd

/-- Column values, defaulting to the empty column. -/
def colValsD (df : Df) (c : String) : List Cell := (lookupCol df c).getD []

/-- Number of rows (length of the first column; 0 for no columns). -/
def rowCount (df : Df) : Nat :=
  match df.cols with
  | [] => 0
  | p :: _ => p.2.length

/-- pandas `DataFrame.empty`: true when either axis has length 0. -/
def isEmptyDf (df : Df) : Bool := df.cols.isEmpty || rowCount df == 0

/-- `pd.DataFrame()`. -/
def emptyDf : Df := ⟨[]⟩

/-- Python `df[c]`: the column, or a KeyError. -/
def getColE (df : Df) (c : String) : Except String (List Cell) :=
  match lookupCol df c with
  | some v => .ok v
  | none => .error ("KeyError: " ++ c)

/-- Python `df.get(c, None)` used as a column in a DataFrame literal: the
column if present, otherwise a column of nulls. -/
def getColD (df : Df) (c : String) : List Cell :=
  match lookupCol df c with
  | some v => v
  | none => List.replicate (rowCount df) Cell.null

/-- Replace the values of the named column(s) pointwise. -/
def mapCol (df : Df) (c : String) (f : Cell → Cell) : Df :=
  ⟨df.cols.map (fun p => if p.1 == c then (p.1, p.2.map f) else p)⟩

/-- pandas `rename(columns=...)` for a single name. -/
def renameCol (df : Df) (a b : String) : Df :=
  ⟨df.cols.map (fun p => if p.1 == a then (b, p.2) else p)⟩

/-- Append a new column at the end (`df[c] = vals`). -/
def addCol (df : Df) (c : String) (vals : List Cell) : Df :=
  ⟨df.cols ++ [(c, vals)]⟩

/-- ASCII lower-casing of one character. -/
def charLower (ch : Char) : Char :=
  if 65 ≤ ch.toNat ∧ ch.toNat ≤ 90 then Char.ofNat (ch.toNat + 32) else ch

/-- Whitespace as stripped by `str.strip()`. -/
def isSpaceChar (ch : Char) : Bool :=
  ch = ' ' || ch = '\t' || ch = '\n' || ch = '\r'

/-- Column-name normalization of `load_data`: `str.strip().str.lower()`
(strip surrounding whitespace, then lowercase). -/
def normalizeName (s : String) : String :=
  String.mk (((s.data.dropWhile isSpaceChar).reverse.dropWhile isSpaceChar).reverse.map charLower)

/-- Normalize all column names. -/
def normalizeDf (df : Df) : Df :=
  ⟨df.cols.map (fun p => (normalizeName p.1, p.2))⟩

/-- `pd.to_datetime(col, errors="coerce")` on one cell: an already
parseable value (modelled as a numeric epoch cell) survives, everything
else becomes an explicit null instead of raising. -/
def toDatetimeCell : Cell → Cell
  | .num q => .num q
  | _ => .null

/-- Keep the values whose mask bit is true. -/
def applyMask (mask : List Bool) (vals : List Cell) : List Cell :=
  (mask.zip vals).filterMap (fun p => if p.1 then some p.2 else none)

/-- pandas `dropna(subset=[c])`: drop every row whose cell in column `c`
is null (KeyError when the column is absent). -/
def dropnaSubset (df : Df) (c : String) : Except String Df :=
  match lookupCol df c with
  | none => .error ("KeyError: " ++ c)
  | some kv =>
    let mask := kv.map (fun x => !isNull x)
    .ok ⟨df.cols.map (fun p => (p.1, applyMask mask p.2))⟩

/-- pandas `sort_values(c)`: stable ascending sort of the rows by the
key column, realized by sorting the row indices and permuting every
column accordingly. -/
def sortByCol (df : Df) (c : String) : Df :=
  let kv := colValsD df c
  let key : Nat → ℚ := fun i => cellQD (kv.getD i Cell.null)
  let idx := List.insertionSort (fun i j => key i ≤ key j) (List.range kv.length)
  ⟨df.cols.map (fun p => (p.1, idx.map (fun i => p.2.getD i Cell.null)))⟩

/-- Index of the last key that is ≤ `t` (the backward asof match on a
list of keys sorted ascending). -/
def lastIdxLE (t : ℚ) (keys : List ℚ) : Option Nat :=
  ((List.range keys.length).filter (fun j => decide (keys.getD j 0 ≤ t))).getLast?

/-- `pd.merge_asof(ldf, rdf, left_on=lkey, right_on=rkey,
direction="backward")` over already-sorted inputs: every left row is
kept, and each right column contributes the value of the matched right
row (the last one whose key is ≤ the left key), or null when no right
key qualifies. -/
def mergeAsofDf (ldf rdf : Df) (lkey rkey : String) : Df :=
  let lkeys := (colValsD ldf lkey).map cellQD
  let rkeys := (colValsD rdf rkey).map cellQD
  let matched := lkeys.map (fun t => lastIdxLE t rkeys)
  ⟨ldf.cols ++ rdf.cols.map (fun p =>
    (p.1, matched.map (fun m =>
      match m with
      | some j => p.2.getD j Cell.null
      | none => Cell.null)))⟩

/-- The measurement operand of a rule, read from row `i` of the merged
table: `none` when the column is absent; a null cell also yields `none`
(a NaN operand makes every comparison false, like a missing one). -/
def fieldQAt (df : Df) (c : String) (i : Nat) : Option ℚ :=
  match lookupCol df c with
  | none => none
  | some vals => cellQ (vals.getD i Cell.null)

/-- The day-indicator operand: `none` when the column is absent (the
source then defaults it to 1); a present null cell compares unequal
to 1, like NaN in the source, so it is modelled as 0. -/
def dayFieldAt (df : Df) (i : Nat) : Option ℚ :=
  match lookupCol df "is_day ()" with
  | none => none
  | some vals =>
    match vals.getD i Cell.null with
    | .num q => some q
    | _ => some 0

/-- Row `i` of the merged table as seen by `generate_label`
(`merged.apply(generator.generate_label, axis=1)`). -/
def weatherRowAt (df : Df) (i : Nat) : WeatherRow where
  rh := fieldQAt df "relative_humidity_2m (%)" i
  cc_low := fieldQAt df "cloud_cover_low (%)" i
  cc_total := fieldQAt df "cloud_cover (%)" i
  ws := fieldQAt df "wind_speed_10m (km/h)" i
  precip := fieldQAt df "precipitation (mm)" i
  is_day := dayFieldAt df i

/-! ### DataIngest (src/dags/data_ingest.py) -/

/-- The errors `load_data` can raise: a missing input file
(`FileNotFoundError`, the spec's SourceNotFoundError) or a missing
required column (`KeyError`, the spec's SchemaError). -/
inductive LoadError where
  | fileNotFound (which : String)
  | keyError (which : String)
  deriving DecidableEq

/-- The weather timestamp column candidates, in priority order. -/
def timeCandidates : List String :=
  ["time_weather", "timestamp", "datetime", "time", "weather_time"]

/-- `DataIngest.load_data`: check both files exist, normalize column
names, require `accept_time` in the delivery table (parsing it with
coercion), parse the optional `delivery_time`, detect the weather
timestamp column as the first candidate present and parse it.  The
boolean flags model `os.path.exists` for the two input files. -/
def load_data (dEx wEx : Bool) (ddf wdf : Df) : Except LoadError (Df × Df × String) :=
  if !dEx then .error (.fileNotFound "delivery")
  else if !wEx then .error (.fileNotFound "weather")
  else
    let d1 := normalizeDf ddf
    let w1 := normalizeDf wdf
    if "accept_time" ∈ namesOf d1 then
      let d2 := mapCol d1 "accept_time" toDatetimeCell
      let d3 :=
        if "delivery_time" ∈ namesOf d2 then mapCol d2 "delivery_time" toDatetimeCell
        else d2
      match timeCandidates.find? (fun c => decide (c ∈ namesOf w1)) with
      | some c => .ok (d3, mapCol w1 c toDatetimeCell, c)
      | none => .error (.keyError "weather timestamp column")
    else .error (.keyError "accept_time")

/-- `DataIngest.enrich_with_weather`: drop delivery rows with null
`accept_time` and weather rows with null timestamp, sort both by their
timestamp, asof-join backward, rename the weather timestamp column to
`time_weather`, and attach the generated weather label per row. -/
def enrich_with_weather (ddf wdf : Df) (wcol : String) : Except String Df := do
  let dclean ← dropnaSubset ddf "accept_time"
  let wclean ← dropnaSubset wdf wcol
  let dsorted := sortByCol dclean "accept_time"
  let wsorted := sortByCol wclean wcol
  let merged0 := mergeAsofDf dsorted wsorted "accept_time" wcol
  let merged := if wcol == "time_weather" then merged0 else renameCol merged0 wcol "time_weather"
  let labels :=
    (List.range (rowCount merged)).map
      (fun i => Cell.str (generate_label (weatherRowAt merged i)))
  .ok (addCol merged "Weather_Label" labels)

/-- The dynamically-typed cell handed to `_map_traffic`: numeric cells
are Timestamps, string cells are strings, nulls (NaT) are neither. -/
def cellToTimeInput : Cell → TimeInput
  | .num q => .tsVal q
  | .str s => .strVal s
  | .null => .otherVal

/-- `DataIngest.enrich_with_traffic_and_vehicles` /
`TrafficMockGenerator.generate`: reads `df["delivery_time"]`
unconditionally (KeyError when absent) and attaches the traffic label
per row. -/
def enrich_with_traffic_and_vehicles (df : Df) : Except String Df :=
  match lookupCol df "delivery_time" with
  | none => .error ("KeyError: delivery_time")
  | some vals =>
    .ok (addCol df "Traffic_Label" (vals.map (fun c => Cell.str (map_traffic (cellToTimeInput c)))))

/-! ### DataAligner (src/dags/data_transformation.py) -/

/-- `.dt.date` on a parsed timestamp cell: truncate to midnight. -/
def dateCell : Cell → Cell
  | .num q => .num (86400 * (⌊q / 86400⌋ : ℤ))
  | _ => .null

/-- `(delivery - pickup).dt.total_seconds() / 60`: minutes between two
timestamps, null (NaN) when either side is NaT. -/
def etaCell (d p : Cell) : Cell :=
  match d, p with
  | .num a, .num b => .num ((a - b) / 60)
  | _, _ => .null

/-- pandas `Series.fillna` on one cell. -/
def fillnaCell (a b : Cell) : Cell := if isNull a then b else a

/-- `pd.to_datetime(Order_Date.astype(str) + " " + Order_Time.fillna("00:00:00"),
errors="coerce")` on one row: a parseable date (numeric midnight epoch)
combined with a parseable time-of-day (numeric seconds) parses to their
sum; a missing time-of-day defaults to midnight; anything else is
coerced to null. -/
def combineDT (d t : Cell) : Cell :=
  match d, t with
  | .num dd, .num tt => .num (dd + tt)
  | .num dd, .null => .num dd
  | _, _ => .null

/-- `pickup + pd.to_timedelta(minutes, unit="m")` on one row. -/
def addMin (p m : Cell) : Cell :=
  match p, m with
  | .num pp, .num mm => .num (pp + 60 * mm)
  | _, _ => .null

/-- `DataAligner.transform_delivery_dataset`: empty input short-circuits
to an empty frame; otherwise the required columns are read (KeyError if
absent, in the source's evaluation order), timestamps re-parsed with
coercion, pickup coordinates take accept-GPS with fallback to lat/lng,
the label columns are read tolerantly, and `ETA_target` is computed as
(delivery − pickup) minutes. -/
def transform_delivery_dataset (df1 : Df) : Except String Df :=
  if isEmptyDf df1 then .ok emptyDf
  else do
    let accept0 ← getColE df1 "accept_time"
    let accept := accept0.map toDatetimeCell
    let deliv0 ← getColE df1 "delivery_time"
    let deliv := deliv0.map toDatetimeCell
    let oid ← getColE df1 "order_id"
    let aglat ← getColE df1 "accept_gps_lat"
    let lat ← getColE df1 "lat"
    let aglng ← getColE df1 "accept_gps_lng"
    let lng ← getColE df1 "lng"
    let dlat ← getColE df1 "delivery_gps_lat"
    let dlng ← getColE df1 "delivery_gps_lng"
    .ok ⟨[("order_id", oid),
          ("Date", accept.map dateCell),
          ("pickup_time", accept),
          ("delivery_time", deliv),
          ("pickup_lat", List.zipWith fillnaCell aglat lat),
          ("pickup_lng", List.zipWith fillnaCell aglng lng),
          ("drop_lat", dlat),
          ("drop_lng", dlng),
          ("weather", getColD df1 "Weather_Label"),
          ("traffic", getColD df1 "Traffic_Label"),
          ("ETA_target", List.zipWith etaCell deliv accept)]⟩

/-- `DataAligner.transform_amazon_dataset`: empty input short-circuits;
otherwise pickup is the combined order date and time (missing time
defaults to midnight), delivery is pickup plus the stated minutes,
weather is a column of nulls, the traffic descriptor is carried
verbatim, and `ETA_target` is (delivery − pickup) minutes.  Note the
column order: traffic precedes weather in this source. -/
def transform_amazon_dataset (df2 : Df) : Except String Df :=
  if isEmptyDf df2 then .ok emptyDf
  else do
    let odate ← getColE df2 "Order_Date"
    let otime ← getColE df2 "Order_Time"
    let pickup := List.zipWith combineDT odate otime
    let dur ← getColE df2 "Delivery_Time"
    let delivery := List.zipWith addMin pickup dur
    let oid ← getColE df2 "Order_ID"
    let slat ← getColE df2 "Store_Latitude"
    let slng ← getColE df2 "Store_Longitude"
    let dlat ← getColE df2 "Drop_Latitude"
    let dlng ← getColE df2 "Drop_Longitude"
    let traf ← getColE df2 "Traffic"
    .ok ⟨[("order_id", oid),
          ("Date", odate),
          ("pickup_time", pickup),
          ("delivery_time", delivery),
          ("pickup_lat", slat),
          ("pickup_lng", slng),
          ("drop_lat", dlat),
          ("drop_lng", dlng),
          ("traffic", traf),
          ("weather", List.replicate (rowCount df2) Cell.null),
          ("ETA_target", List.zipWith etaCell delivery pickup)]⟩

/-- `pd.concat([df1, df2], ignore_index=True)`: rows of `df1` first,
then rows of `df2`; columns are aligned by name in the order of `df1`
followed by the names only `df2` has, padding a frame that lacks a
column with nulls. -/
def concatIgnoreIndex (df1 df2 : Df) : Df :=
  let names2 := (namesOf df2).filter (fun c => !(namesOf df1).contains c)
  ⟨(namesOf df1 ++ names2).map (fun c => (c, getColD df1 c ++ getColD df2 c))⟩

/-- `DataAligner.align`: transform both sources; if both are empty
return an empty frame, if one is empty return the other unchanged,
otherwise concatenate with a renumbered index. -/
def align (ddf adf : Df) : Except String Df := do
  let df1 ← transform_delivery_dataset ddf
  let df2 ← transform_amazon_dataset adf
  if isEmptyDf df1 && isEmptyDf df2 then .ok emptyDf
  else if isEmptyDf df1 then .ok df2
  else if isEmptyDf df2 then .ok df1
  else .ok (concatIgnoreIndex df1 df2)

/-- The canonical column list of the spec, in the claimed order. -/
def canonicalCols : List String :=
  ["order_id", "Date", "pickup_time", "delivery_time", "pickup_lat", "pickup_lng",
   "drop_lat", "drop_lng", "weather", "traffic", "ETA_target"]

/-- The column order `transform_amazon_dataset` actually produces:
traffic and weather are swapped relative to `canonicalCols`. -/
def amazonCols : List String :=
  ["order_id", "Date", "pickup_time", "delivery_time", "pickup_lat", "pickup_lng",
   "drop_lat", "drop_lng", "traffic", "weather", "ETA_target"]

/-- The columns `transform_delivery_dataset` requires on a non-empty
input, in the source's evaluation order. -/
def requiredDeliveryCols : List String :=
  ["accept_time", "delivery_time", "order_id", "accept_gps_lat", "lat",
   "accept_gps_lng", "lng", "delivery_gps_lat", "delivery_gps_lng"]

/-! ### Theorems about the classifiers -/

theorem bne_zero_of_lt {v c : ℚ} (hc : 0 ≤ c) (h : c < v) : (v != 0) = true := by
  simp only [bne_iff_ne, ne_eq]
  intro e
  rw [e] at h
  exact absurd (lt_of_le_of_lt hc h) (lt_irrefl 0)

theorem fog_cond (rh ccl ws : Option ℚ) :
    (truthy rh && truthy ccl && ws.isSome &&
      decide (rh.getD 0 > 90) && decide (ccl.getD 0 > 80) && decide (ws.getD 0 < 2))
      = (oGT rh 90 && oGT ccl 80 && oLT ws 2) := by
  cases rh with
  | none => simp [truthy, oGT]
  | some v =>
    cases ccl with
    | none => simp [truthy, oGT]
    | some w =>
      cases ws with
      | none => simp [truthy, oLT]
      | some u =>
        simp only [truthy, oGT, oLT, Option.isSome_some, Option.getD_some, Bool.and_true]
        by_cases h1 : (90 : ℚ) < v
        · by_cases h2 : (80 : ℚ) < w
          · rw [bne_zero_of_lt (by norm_num) h1, bne_zero_of_lt (by norm_num) h2]
            simp [h1, h2]
          · simp [h2]
        · simp [h1]

theorem stormy_cond (ws precip : Option ℚ) :
    (truthy ws && precip.isSome && decide (ws.getD 0 > 12) && decide (precip.getD 0 > 2))
      = (oGT ws 12 && oGT precip 2) := by
  cases ws with
  | none => simp [truthy, oGT]
  | some v =>
    cases precip with
    | none => simp [truthy, oGT]
    | some p =>
      simp only [truthy, oGT, Option.isSome_some, Option.getD_some, Bool.and_true]
      by_cases h1 : (12 : ℚ) < v
      · rw [bne_zero_of_lt (by norm_num) h1]
        simp [h1]
      · simp [h1]

theorem sandstorm_cond (ws precip rh : Option ℚ) :
    (truthy ws && precip.isSome && rh.isSome &&
      decide (ws.getD 0 > 10) && decide (precip.getD 0 < 1/10) && decide (rh.getD 0 < 40))
      = (oGT ws 10 && oLT precip (1/10) && oLT rh 40) := by
  cases ws with
  | none => simp [truthy, oGT]
  | some v =>
    cases precip with
    | none => simp [truthy, oGT, oLT]
    | some p =>
      cases rh with
      | none => simp [truthy, oLT]
      | some q =>
        simp only [truthy, oGT, oLT, Option.isSome_some, Option.getD_some, Bool.and_true]
        by_cases h1 : (10 : ℚ) < v
        · rw [bne_zero_of_lt (by norm_num) h1]
          simp [h1]
        · simp [h1]

theorem windy_cond (ws precip : Option ℚ) :
    (truthy ws && precip.isSome &&
      decide (6 ≤ ws.getD 0) && decide (ws.getD 0 ≤ 12) && decide (precip.getD 0 < 1))
      = (oGE ws 6 && oLE ws 12 && oLT precip 1) := by
  cases ws with
  | none => simp [truthy, oGE]
  | some v =>
    cases precip with
    | none => simp [truthy, oGE, oLE, oLT]
    | some p =>
      simp only [truthy, oGE, oLE, oLT, Option.isSome_some, Option.getD_some, Bool.and_true]
      by_cases h1 : (6 : ℚ) ≤ v
      · rw [bne_zero_of_lt (le_refl 0) (lt_of_lt_of_le (show (0 : ℚ) < 6 by norm_num) h1)]
        simp [h1]
      · simp [h1]

theorem cloudy_cond (cct precip : Option ℚ) :
    (truthy cct && precip.isSome && decide (cct.getD 0 > 70) && decide (precip.getD 0 < 1))
      = (oGT cct 70 && oLT precip 1) := by
  cases cct with
  | none => simp [truthy, oGT]
  | some v =>
    cases precip with
    | none => simp [truthy, oGT, oLT]
    | some p =>
      simp only [truthy, oGT, oLT, Option.isSome_some, Option.getD_some, Bool.and_true]
      by_cases h1 : (70 : ℚ) < v
      · rw [bne_zero_of_lt (by norm_num) h1]
        simp [h1]
      · simp [h1]

theorem sunny_cond (cct : Option ℚ) (b : Bool) :
    (cct.isSome && decide (cct.getD 0 < 30) && b)
      = (oLT cct 30 && b) := by
  cases cct <;> simp [oLT]

/-- The source classifier agrees everywhere with the amended rule
reading: spec rules in priority order, missing operands skip a rule,
except that a missing day indicator defaults to daytime. -/
theorem generate_label_eq (r : WeatherRow) :
    generate_label r = ruleString (specLabelAmended r) := by
  rcases r with ⟨rh, ccl, cct, ws, pr, isd⟩
  unfold generate_label specLabelAmended
  dsimp only
  rw [fog_cond, stormy_cond, sandstorm_cond, windy_cond, cloudy_cond, sunny_cond]
  split_ifs <;> rfl

/-- C2 counterexample: wind speed 11 km/h, precipitation 0.05 mm and
humidity 30 % trigger the third rule, whose emitted label is the string
"Sandstorms" — not an element of the claimed label set, which contains
"Sandstorm". -/
theorem c2_counterexample :
    generate_label ⟨some 30, none, none, some 11, some (1/20), none⟩ = "Sandstorms" ∧
      "Sandstorms" ∉ ["Fog", "Stormy", "Sandstorm", "Windy", "Cloudy", "Sunny"] := by
  constructor
  · simp only [generate_label, truthy]
    norm_num
  · decide

/-- C2 (amended): the weather label classifier is total — for every
combination of present and absent measurement fields it returns exactly
one label from the set containing Fog, Stormy, Sandstorms (the source's
plural spelling), Windy, Cloudy and Sunny, and never fails. -/
theorem c2_weather_label_total (r : WeatherRow) :
    generate_label r ∈ ["Fog", "Stormy", "Sandstorms", "Windy", "Cloudy", "Sunny"] := by
  rw [generate_label_eq]
  cases specLabelAmended r <;> simp [ruleString]

/-- C3 counterexample: a record whose only present field is a total
cloud cover of 10 %.  Per the claim every rule with a missing operand is
skipped, so the Sunny rule (whose day-indicator operand is missing) must
be skipped and the default Cloudy returned; the source instead defaults
the missing day indicator to 1 and returns Sunny. -/
theorem c3_counterexample :
    generate_label ⟨none, none, some 10, none, none, none⟩ = "Sunny" ∧
      specLabelClaimed ⟨none, none, some 10, none, none, none⟩ = RuleLabel.cloudy ∧
      codeLabelToRule "Sunny" = some RuleLabel.sunny ∧
      RuleLabel.sunny ≠ RuleLabel.cloudy := by
  refine ⟨?_, ?_, by decide, by decide⟩
  · simp only [generate_label, truthy]
    norm_num
  · simp only [specLabelClaimed, oGT, oLT, oGE, oLE, oEQ]
    norm_num

/-- C3 (amended): the classifier evaluates the rules in the fixed
priority order Fog, Stormy, Sandstorm, Windy, Cloudy, Sunny with the
stated thresholds, the first matching rule wins, a rule with a missing
operand is skipped — except that a missing day indicator defaults to 1
(daytime), keeping the Sunny rule applicable — and if no rule matches
the default is Cloudy; in particular the Fog thresholds are strict, so
humidity exactly 90, low cloud cover exactly 80 and wind speed exactly 2
do not classify as Fog. -/
theorem c3_weather_rules_amended :
    (∀ r : WeatherRow, codeLabelToRule (generate_label r) = some (specLabelAmended r)) ∧
      (∀ r : WeatherRow, r.rh = some 90 → r.cc_low = some 80 → r.ws = some 2 →
        generate_label r ≠ "Fog") := by
  constructor
  · intro r
    rw [generate_label_eq]
    cases specLabelAmended r <;> rfl
  · intro r h1 h2 h3
    have hne : specLabelAmended r ≠ RuleLabel.fog := by
      unfold specLabelAmended
      rw [h1, h3]
      have hgt : oGT (some (90 : ℚ)) 90 = false := by
        simp [oGT]
      rw [hgt]
      simp only [Bool.false_and, Bool.false_eq_true, if_false]
      split_ifs <;> decide
    rw [generate_label_eq]
    cases h : specLabelAmended r
    case fog => exact absurd h hne
    all_goals decide

/-- C3 witness: the second conjunct applied at the concrete boundary
record (humidity 90, low cloud cover 80, wind speed 2, precipitation 5,
so that no other rule interferes with reading off the label). -/
theorem c3_witness :
    generate_label ⟨some 90, some 80, none, some 2, some 5, some 1⟩ ≠ "Fog" :=
  c3_weather_rules_amended.2 ⟨some 90, some 80, none, some 2, some 5, some 1⟩ rfl rfl rfl

/-- C4: the traffic label classifier is total over any input value and
agrees with the claimed bucket rules: 07:00:00 ≤ t ≤ 09:00:00 yields
High, otherwise 17:00:00 ≤ t ≤ 19:00:00 yields Jam, otherwise
t ≥ 22:00:00 or t ≤ 05:00:00 yields Low, otherwise Medium; any input
that is neither a timestamp nor a string in the expected textual
pattern yields Medium, and the result is always one of Low, Medium,
High, Jam. -/
theorem c4_traffic_label_total (v : TimeInput) :
    map_traffic v = trafficSpecClaimed v ∧
      map_traffic v ∈ ["Low", "Medium", "High", "Jam"] := by
  have heq : map_traffic v = trafficSpecClaimed v := by
    cases v with
    | strVal s =>
      unfold map_traffic trafficSpecClaimed
      cases strptimeTime s <;> rfl
    | tsVal q => rfl
    | otherVal => rfl
  refine ⟨heq, ?_⟩
  rw [heq]
  have bucket_mem : ∀ t : ℚ,
      trafficSpecClaimed.trafficBucketClaimed t ∈ ["Low", "Medium", "High", "Jam"] := by
    intro t
    unfold trafficSpecClaimed.trafficBucketClaimed
    split_ifs <;> decide
  cases v with
  | strVal s =>
    show (match strptimeTime s with
      | none => "Medium"
      | some t => trafficSpecClaimed.trafficBucketClaimed t) ∈ ["Low", "Medium", "High", "Jam"]
    cases strptimeTime s with
    | none => decide
    | some t => exact bucket_mem t
  | tsVal q => exact bucket_mem (todOf q)
  | otherVal => decide

/-! ### Helper lemmas about the tabular model -/

theorem namesOf_mapCol (df : Df) (c : String) (f : Cell → Cell) :
    namesOf (mapCol df c f) = namesOf df := by
  unfold namesOf mapCol
  rcases df with ⟨cols⟩
  induction cols with
  | nil => rfl
  | cons p t ih =>
    simp only [List.map_cons, List.map]
    rw [show (List.map Prod.fst (List.map (fun p => if p.1 == c then (p.1, List.map f p.2) else p) t)) = List.map Prod.fst t from ih]
    by_cases h : p.1 == c
    · simp [h]
    · simp [h]

theorem find?_first {α : Type} (p : α → Bool) (l : List α) (a : α)
    (h : l.find? p = some a) :
    p a = true ∧ ∃ pre post, l = pre ++ a :: post ∧ ∀ b ∈ pre, p b = false := by
  induction l with
  | nil => simp at h
  | cons x xs ih =>
    by_cases hx : p x = true
    · rw [List.find?_cons_of_pos _ hx] at h
      injection h with h
      subst h
      exact ⟨hx, [], xs, rfl, by simp⟩
    · rw [List.find?_cons_of_neg _ hx] at h
      obtain ⟨hpa, pre, post, hsplit, hpre⟩ := ih h
      refine ⟨hpa, x :: pre, post, by rw [hsplit]; rfl, ?_⟩
      intro b hb
      rcases List.mem_cons.mp hb with h1 | h1
      · subst h1
        exact Bool.not_eq_true _ |>.mp hx
      · exact hpre b h1

/-- C7: ingestion fails with the file-not-found error exactly when a
required input table is missing; it fails with the schema error exactly
when the (normalized) delivery table lacks `accept_time` or no candidate
timestamp column is present in the (normalized) weather table; on
success the chosen weather timestamp column is the first present
candidate in priority order; and unparseable timestamp cells never
raise — they are coerced to explicit nulls. -/
theorem c7_load_data_errors (dEx wEx : Bool) (ddf wdf : Df) :
    ((∃ s, load_data dEx wEx ddf wdf = .error (.fileNotFound s)) ↔
      (dEx = false ∨ wEx = false)) ∧
    ((∃ s, load_data dEx wEx ddf wdf = .error (.keyError s)) ↔
      (dEx = true ∧ wEx = true ∧
        ("accept_time" ∉ namesOf (normalizeDf ddf) ∨
          ∀ c ∈ timeCandidates, c ∉ namesOf (normalizeDf wdf)))) ∧
    (∀ d w c, load_data dEx wEx ddf wdf = .ok (d, w, c) →
      c ∈ timeCandidates ∧ c ∈ namesOf (normalizeDf wdf) ∧
      ∃ pre post, timeCandidates = pre ++ c :: post ∧
        ∀ c2 ∈ pre, c2 ∉ namesOf (normalizeDf wdf)) ∧
    (∀ cell, cellQ cell = none → toDatetimeCell cell = Cell.null) := by
  have hcoerce : ∀ cell, cellQ cell = none → toDatetimeCell cell = Cell.null := by
    intro cell h
    cases cell <;> simp_all [cellQ, toDatetimeCell]
  cases dEx with
  | false =>
    refine ⟨?_, ?_, ?_, hcoerce⟩
    · constructor
      · rintro -
        exact Or.inl rfl
      · rintro -
        exact ⟨"delivery", rfl⟩
    · constructor
      · rintro ⟨s, h⟩
        exact absurd h (by simp [load_data])
      · rintro ⟨h, -⟩
        exact Bool.noConfusion h
    · intro d w c h
      exact absurd h (by simp [load_data])
  | true =>
    cases wEx with
    | false =>
      refine ⟨?_, ?_, ?_, hcoerce⟩
      · constructor
        · rintro -
          exact Or.inr rfl
        · rintro -
          exact ⟨"weather", rfl⟩
      · constructor
        · rintro ⟨s, h⟩
          exact absurd h (by simp [load_data])
        · rintro ⟨-, h, -⟩
          exact Bool.noConfusion h
      · intro d w c h
        exact absurd h (by simp [load_data])
    | true =>
      by_cases hacc : "accept_time" ∈ namesOf (normalizeDf ddf)
      · rcases hfind : timeCandidates.find? (fun c => decide (c ∈ namesOf (normalizeDf wdf)))
          with - | c0
        · -- no candidate: keyError
          refine ⟨?_, ?_, ?_, hcoerce⟩
          · constructor
            · rintro ⟨s, h⟩
              exact absurd h (by simp [load_data, hacc, hfind])
            · rintro (h | h) <;> exact Bool.noConfusion h
          · constructor
            · rintro -
              refine ⟨rfl, rfl, Or.inr ?_⟩
              intro c hc
              have := List.find?_eq_none.mp hfind c hc
              simpa using this
            · rintro -
              refine ⟨"weather timestamp column", ?_⟩
              simp [load_data, hacc, hfind]
          · intro d w c h
            exact absurd h (by simp [load_data, hacc, hfind])
        · -- candidate found: ok
          refine ⟨?_, ?_, ?_, hcoerce⟩
          · constructor
            · rintro ⟨s, h⟩
              exact absurd h (by simp [load_data, hacc, hfind])
            · rintro (h | h) <;> exact Bool.noConfusion h
          · constructor
            · rintro ⟨s, h⟩
              exact absurd h (by simp [load_data, hacc, hfind])
            · rintro ⟨-, -, h | h⟩
              · exact absurd hacc h
              · obtain ⟨hp, pre, post, hsplit, -⟩ := find?_first _ _ _ hfind
                have hmem : c0 ∈ timeCandidates := by
                  rw [hsplit]
                  simp
                exact absurd (of_decide_eq_true hp) (h c0 hmem)
          · intro d w c h
            have h2 : load_data true true ddf wdf = Except.ok (d, w, c) := h
            simp only [load_data, Bool.not_true, Bool.false_eq_true, if_false, hacc, if_true,
              hfind, Except.ok.injEq, Prod.mk.injEq] at h2
            obtain ⟨-, -, hc⟩ := h2
            subst hc
            obtain ⟨hp, pre, post, hsplit, hpre⟩ := find?_first _ _ _ hfind
            have hmem : c0 ∈ timeCandidates := by
              rw [hsplit]
              simp
            refine ⟨hmem, of_decide_eq_true hp, pre, post, hsplit, ?_⟩
            intro c2 hc2
            have := hpre c2 hc2
            simpa using this
      · -- accept_time missing: keyError
        refine ⟨?_, ?_, ?_, hcoerce⟩
        · constructor
          · rintro ⟨s, h⟩
            exact absurd h (by simp [load_data, hacc])
          · rintro (h | h) <;> exact Bool.noConfusion h
        · constructor
          · rintro -
            exact ⟨rfl, rfl, Or.inl hacc⟩
          · rintro -
            refine ⟨"accept_time", ?_⟩
            simp [load_data, hacc]
        · intro d w c h
          exact absurd h (by simp [load_data, hacc])

/-- C7 witness: a one-row delivery table with an `accept_time` column
and a one-row weather table whose timestamp column is named `datetime`
load successfully, and the chosen candidate is `datetime` with the two
earlier candidates absent. -/
theorem c7_witness :
    "datetime" ∈ timeCandidates ∧
      "datetime" ∈ namesOf (normalizeDf ⟨[("datetime", [Cell.num 0])]⟩) ∧
      ∃ pre post, timeCandidates = pre ++ "datetime" :: post ∧
        ∀ c2 ∈ pre, c2 ∉ namesOf (normalizeDf ⟨[("datetime", [Cell.num 0])]⟩) :=
  (c7_load_data_errors true true ⟨[("accept_time", [Cell.num 0])]⟩
      ⟨[("datetime", [Cell.num 0])]⟩).2.2.1
    ⟨[("accept_time", [Cell.num 0])]⟩ ⟨[("datetime", [Cell.num 0])]⟩ "datetime" rfl

theorem exBind_ok {α β : Type} (a : α) (f : α → Except String β) :
    (Except.ok a >>= f) = f a := rfl

theorem exBind_error {α β : Type} (e : String) (f : α → Except String β) :
    ((Except.error e : Except String α) >>= f) = Except.error e := rfl

theorem lookupCol_isSome_iff (df : Df) (c : String) :
    (lookupCol df c).isSome ↔ c ∈ namesOf df := by
  unfold lookupCol namesOf
  rw [show ∀ o : Option (String × List Cell), (Option.map Prod.snd o).isSome = o.isSome from
    fun o => by cases o <;> rfl]
  rw [List.find?_isSome]
  constructor
  · rintro ⟨p, hp, hbeq⟩
    exact List.mem_map.mpr ⟨p, hp, beq_iff_eq.mp hbeq⟩
  · intro h
    obtain ⟨p, hp, he⟩ := List.mem_map.mp h
    exact ⟨p, hp, beq_iff_eq.mpr he⟩

theorem mem_of_lookupCol_some {df : Df} {c : String} {v : List Cell}
    (h : lookupCol df c = some v) : c ∈ namesOf df := by
  rw [← lookupCol_isSome_iff, h]
  rfl

theorem lookupCol_none_of_not_mem {df : Df} {c : String} (h : c ∉ namesOf df) :
    lookupCol df c = none := by
  rcases he : lookupCol df c with - | v
  · rfl
  · exact absurd (mem_of_lookupCol_some he) h

/-- The successful unfolding of `transform_delivery_dataset` when every
required column is present. -/
theorem transform_delivery_ok_shape (ddf : Df) (hne : isEmptyDf ddf = false)
    (va vd vo p1 p2 p3 p4 p5 p6 : List Cell)
    (h1 : lookupCol ddf "accept_time" = some va)
    (h2 : lookupCol ddf "delivery_time" = some vd)
    (h3 : lookupCol ddf "order_id" = some vo)
    (h4 : lookupCol ddf "accept_gps_lat" = some p1)
    (h5 : lookupCol ddf "lat" = some p2)
    (h6 : lookupCol ddf "accept_gps_lng" = some p3)
    (h7 : lookupCol ddf "lng" = some p4)
    (h8 : lookupCol ddf "delivery_gps_lat" = some p5)
    (h9 : lookupCol ddf "delivery_gps_lng" = some p6) :
    transform_delivery_dataset ddf = Except.ok
      ⟨[("order_id", vo),
        ("Date", (va.map toDatetimeCell).map dateCell),
        ("pickup_time", va.map toDatetimeCell),
        ("delivery_time", vd.map toDatetimeCell),
        ("pickup_lat", List.zipWith fillnaCell p1 p2),
        ("pickup_lng", List.zipWith fillnaCell p3 p4),
        ("drop_lat", p5),
        ("drop_lng", p6),
        ("weather", getColD ddf "Weather_Label"),
        ("traffic", getColD ddf "Traffic_Label"),
        ("ETA_target", List.zipWith etaCell (vd.map toDatetimeCell) (va.map toDatetimeCell))]⟩ := by
  unfold transform_delivery_dataset
  rw [hne]
  simp only [Bool.false_eq_true, if_false, getColE, h1, h2, h3, h4, h5, h6, h7, h8, h9,
    exBind_ok]

/-- C10: on every non-empty input, `transform_delivery_dataset` requires
the columns accept_time, delivery_time, order_id, accept_gps_lat, lat,
accept_gps_lng, lng, delivery_gps_lat and delivery_gps_lng — it fails
with a KeyError when any is absent and succeeds when all are present —
while a missing Weather_Label or Traffic_Label column is tolerated and
substituted by a column of nulls. -/
theorem c10_transform_delivery_required_columns (ddf : Df) (hne : isEmptyDf ddf = false) :
    ((∀ c ∈ requiredDeliveryCols, c ∈ namesOf ddf) →
      ∃ out, transform_delivery_dataset ddf = Except.ok out ∧
        ("Weather_Label" ∉ namesOf ddf →
          colValsD out "weather" = List.replicate (rowCount ddf) Cell.null) ∧
        ("Traffic_Label" ∉ namesOf ddf →
          colValsD out "traffic" = List.replicate (rowCount ddf) Cell.null)) ∧
    ((∃ c ∈ requiredDeliveryCols, c ∉ namesOf ddf) →
      ∃ e, transform_delivery_dataset ddf = Except.error e) := by
  have hmiss : ∀ c : String, lookupCol ddf c = none → c ∉ namesOf ddf := by
    intro c h hmem
    rw [← lookupCol_isSome_iff, h] at hmem
    exact Bool.noConfusion hmem
  rcases hl1 : lookupCol ddf "accept_time" with - | va
  · have herr : transform_delivery_dataset ddf = Except.error ("KeyError: " ++ "accept_time") := by
      unfold transform_delivery_dataset
      rw [hne]
      simp only [Bool.false_eq_true, if_false, getColE, hl1, exBind_error]
    refine ⟨?_, fun _ => ⟨_, herr⟩⟩
    intro hall
    exact absurd (hall "accept_time" (by simp [requiredDeliveryCols])) (hmiss _ hl1)
  rcases hl2 : lookupCol ddf "delivery_time" with - | vd
  · have herr : transform_delivery_dataset ddf = Except.error ("KeyError: " ++ "delivery_time") := by
      unfold transform_delivery_dataset
      rw [hne]
      simp only [Bool.false_eq_true, if_false, getColE, hl1, hl2, exBind_ok, exBind_error]
    refine ⟨?_, fun _ => ⟨_, herr⟩⟩
    intro hall
    exact absurd (hall "delivery_time" (by simp [requiredDeliveryCols])) (hmiss _ hl2)
  rcases hl3 : lookupCol ddf "order_id" with - | vo
  · have herr : transform_delivery_dataset ddf = Except.error ("KeyError: " ++ "order_id") := by
      unfold transform_delivery_dataset
      rw [hne]
      simp only [Bool.false_eq_true, if_false, getColE, hl1, hl2, hl3, exBind_ok, exBind_error]
    refine ⟨?_, fun _ => ⟨_, herr⟩⟩
    intro hall
    exact absurd (hall "order_id" (by simp [requiredDeliveryCols])) (hmiss _ hl3)
  rcases hl4 : lookupCol ddf "accept_gps_lat" with - | p1
  · have herr : transform_delivery_dataset ddf = Except.error ("KeyError: " ++ "accept_gps_lat") := by
      unfold transform_delivery_dataset
      rw [hne]
      simp only [Bool.false_eq_true, if_false, getColE, hl1, hl2, hl3, hl4, exBind_ok,
        exBind_error]
    refine ⟨?_, fun _ => ⟨_, herr⟩⟩
    intro hall
    exact absurd (hall "accept_gps_lat" (by simp [requiredDeliveryCols])) (hmiss _ hl4)
  rcases hl5 : lookupCol ddf "lat" with - | p2
  · have herr : transform_delivery_dataset ddf = Except.error ("KeyError: " ++ "lat") := by
      unfold transform_delivery_dataset
      rw [hne]
      simp only [Bool.false_eq_true, if_false, getColE, hl1, hl2, hl3, hl4, hl5, exBind_ok,
        exBind_error]
    refine ⟨?_, fun _ => ⟨_, herr⟩⟩
    intro hall
    exact absurd (hall "lat" (by simp [requiredDeliveryCols])) (hmiss _ hl5)
  rcases hl6 : lookupCol ddf "accept_gps_lng" with - | p3
  · have herr : transform_delivery_dataset ddf = Except.error ("KeyError: " ++ "accept_gps_lng") := by
      unfold transform_delivery_dataset
      rw [hne]
      simp only [Bool.false_eq_true, if_false, getColE, hl1, hl2, hl3, hl4, hl5, hl6,
        exBind_ok, exBind_error]
    refine ⟨?_, fun _ => ⟨_, herr⟩⟩
    intro hall
    exact absurd (hall "accept_gps_lng" (by simp [requiredDeliveryCols])) (hmiss _ hl6)
  rcases hl7 : lookupCol ddf "lng" with - | p4
  · have herr : transform_delivery_dataset ddf = Except.error ("KeyError: " ++ "lng") := by
      unfold transform_delivery_dataset
      rw [hne]
      simp only [Bool.false_eq_true, if_false, getColE, hl1, hl2, hl3, hl4, hl5, hl6, hl7,
        exBind_ok, exBind_error]
    refine ⟨?_, fun _ => ⟨_, herr⟩⟩
    intro hall
    exact absurd (hall "lng" (by simp [requiredDeliveryCols])) (hmiss _ hl7)
  rcases hl8 : lookupCol ddf "delivery_gps_lat" with - | p5
  · have herr : transform_delivery_dataset ddf = Except.error ("KeyError: " ++ "delivery_gps_lat") := by
      unfold transform_delivery_dataset
      rw [hne]
      simp only [Bool.false_eq_true, if_false, getColE, hl1, hl2, hl3, hl4, hl5, hl6, hl7,
        hl8, exBind_ok, exBind_error]
    refine ⟨?_, fun _ => ⟨_, herr⟩⟩
    intro hall
    exact absurd (hall "delivery_gps_lat" (by simp [requiredDeliveryCols])) (hmiss _ hl8)
  rcases hl9 : lookupCol ddf "delivery_gps_lng" with - | p6
  · have herr : transform_delivery_dataset ddf = Except.error ("KeyError: " ++ "delivery_gps_lng") := by
      unfold transform_delivery_dataset
      rw [hne]
      simp only [Bool.false_eq_true, if_false, getColE, hl1, hl2, hl3, hl4, hl5, hl6, hl7,
        hl8, hl9, exBind_ok, exBind_error]
    refine ⟨?_, fun _ => ⟨_, herr⟩⟩
    intro hall
    exact absurd (hall "delivery_gps_lng" (by simp [requiredDeliveryCols])) (hmiss _ hl9)
  have hok := transform_delivery_ok_shape ddf hne va vd vo p1 p2 p3 p4 p5 p6
    hl1 hl2 hl3 hl4 hl5 hl6 hl7 hl8 hl9
  constructor
  · rintro -
    refine ⟨_, hok, ?_, ?_⟩
    · intro hw
      have h2 : getColD ddf "Weather_Label" = List.replicate (rowCount ddf) Cell.null := by
        unfold getColD
        rw [lookupCol_none_of_not_mem hw]
      simpa [colValsD, lookupCol, List.find?] using h2
    · intro ht
      have h2 : getColD ddf "Traffic_Label" = List.replicate (rowCount ddf) Cell.null := by
        unfold getColD
        rw [lookupCol_none_of_not_mem ht]
      simpa [colValsD, lookupCol, List.find?] using h2
  · rintro ⟨c, hc, hnot⟩
    simp only [requiredDeliveryCols, List.mem_cons, List.not_mem_nil, or_false] at hc
    rcases hc with rfl | rfl | rfl | rfl | rfl | rfl | rfl | rfl | rfl
    · exact absurd (mem_of_lookupCol_some hl1) hnot
    · exact absurd (mem_of_lookupCol_some hl2) hnot
    · exact absurd (mem_of_lookupCol_some hl3) hnot
    · exact absurd (mem_of_lookupCol_some hl4) hnot
    · exact absurd (mem_of_lookupCol_some hl5) hnot
    · exact absurd (mem_of_lookupCol_some hl6) hnot
    · exact absurd (mem_of_lookupCol_some hl7) hnot
    · exact absurd (mem_of_lookupCol_some hl8) hnot
    · exact absurd (mem_of_lookupCol_some hl9) hnot

/-- C10 witness: a one-row delivery table carrying exactly the nine
required columns (and neither label column) transforms successfully,
with null weather and traffic columns. -/
theorem c10_witness :
    ∃ out, transform_delivery_dataset
        ⟨[("accept_time", [Cell.num 0]), ("delivery_time", [Cell.num 60]),
          ("order_id", [Cell.num 7]), ("accept_gps_lat", [Cell.num 1]),
          ("lat", [Cell.num 2]), ("accept_gps_lng", [Cell.num 3]),
          ("lng", [Cell.num 4]), ("delivery_gps_lat", [Cell.num 5]),
          ("delivery_gps_lng", [Cell.num 6])]⟩ = Except.ok out ∧
      ("Weather_Label" ∉ namesOf
          ⟨[("accept_time", [Cell.num 0]), ("delivery_time", [Cell.num 60]),
            ("order_id", [Cell.num 7]), ("accept_gps_lat", [Cell.num 1]),
            ("lat", [Cell.num 2]), ("accept_gps_lng", [Cell.num 3]),
            ("lng", [Cell.num 4]), ("delivery_gps_lat", [Cell.num 5]),
            ("delivery_gps_lng", [Cell.num 6])]⟩ →
        colValsD out "weather" = List.replicate 1 Cell.null) ∧
      ("Traffic_Label" ∉ namesOf
          ⟨[("accept_time", [Cell.num 0]), ("delivery_time", [Cell.num 60]),
            ("order_id", [Cell.num 7]), ("accept_gps_lat", [Cell.num 1]),
            ("lat", [Cell.num 2]), ("accept_gps_lng", [Cell.num 3]),
            ("lng", [Cell.num 4]), ("delivery_gps_lat", [Cell.num 5]),
            ("delivery_gps_lng", [Cell.num 6])]⟩ →
        colValsD out "traffic" = List.replicate 1 Cell.null) :=
  (c10_transform_delivery_required_columns
    ⟨[("accept_time", [Cell.num 0]), ("delivery_time", [Cell.num 60]),
      ("order_id", [Cell.num 7]), ("accept_gps_lat", [Cell.num 1]),
      ("lat", [Cell.num 2]), ("accept_gps_lng", [Cell.num 3]),
      ("lng", [Cell.num 4]), ("delivery_gps_lat", [Cell.num 5]),
      ("delivery_gps_lng", [Cell.num 6])]⟩ (by decide)).1 (by decide)

/-- The successful unfolding of `transform_amazon_dataset` when every
required column is present. -/
theorem transform_amazon_ok_shape (adf : Df) (hne : isEmptyDf adf = false)
    (vdate vtime vdur void vslat vslng vdlat vdlng vtraf : List Cell)
    (h1 : lookupCol adf "Order_Date" = some vdate)
    (h2 : lookupCol adf "Order_Time" = some vtime)
    (h3 : lookupCol adf "Delivery_Time" = some vdur)
    (h4 : lookupCol adf "Order_ID" = some void)
    (h5 : lookupCol adf "Store_Latitude" = some vslat)
    (h6 : lookupCol adf "Store_Longitude" = some vslng)
    (h7 : lookupCol adf "Drop_Latitude" = some vdlat)
    (h8 : lookupCol adf "Drop_Longitude" = some vdlng)
    (h9 : lookupCol adf "Traffic" = some vtraf) :
    transform_amazon_dataset adf = Except.ok
      ⟨[("order_id", void),
        ("Date", vdate),
        ("pickup_time", List.zipWith combineDT vdate vtime),
        ("delivery_time", List.zipWith addMin (List.zipWith combineDT vdate vtime) vdur),
        ("pickup_lat", vslat),
        ("pickup_lng", vslng),
        ("drop_lat", vdlat),
        ("drop_lng", vdlng),
        ("traffic", vtraf),
        ("weather", List.replicate (rowCount adf) Cell.null),
        ("ETA_target", List.zipWith etaCell
          (List.zipWith addMin (List.zipWith combineDT vdate vtime) vdur)
          (List.zipWith combineDT vdate vtime))]⟩ := by
  unfold transform_amazon_dataset
  rw [hne]
  simp only [Bool.false_eq_true, if_false, getColE, h1, h2, h3, h4, h5, h6, h7, h8, h9,
    exBind_ok]

/-- Inversion of a successful `transform_amazon_dataset` run on a
non-empty input: every required column was present and the output has
the literal column layout of the source. -/
theorem transform_amazon_ok_inv (adf out : Df) (hne : isEmptyDf adf = false)
    (h : transform_amazon_dataset adf = Except.ok out) :
    ∃ vdate vtime vdur void vslat vslng vdlat vdlng vtraf,
      lookupCol adf "Order_Date" = some vdate ∧
      lookupCol adf "Order_Time" = some vtime ∧
      lookupCol adf "Delivery_Time" = some vdur ∧
      lookupCol adf "Order_ID" = some void ∧
      lookupCol adf "Store_Latitude" = some vslat ∧
      lookupCol adf "Store_Longitude" = some vslng ∧
      lookupCol adf "Drop_Latitude" = some vdlat ∧
      lookupCol adf "Drop_Longitude" = some vdlng ∧
      lookupCol adf "Traffic" = some vtraf ∧
      out = ⟨[("order_id", void),
        ("Date", vdate),
        ("pickup_time", List.zipWith combineDT vdate vtime),
        ("delivery_time", List.zipWith addMin (List.zipWith combineDT vdate vtime) vdur),
        ("pickup_lat", vslat),
        ("pickup_lng", vslng),
        ("drop_lat", vdlat),
        ("drop_lng", vdlng),
        ("traffic", vtraf),
        ("weather", List.replicate (rowCount adf) Cell.null),
        ("ETA_target", List.zipWith etaCell
          (List.zipWith addMin (List.zipWith combineDT vdate vtime) vdur)
          (List.zipWith combineDT vdate vtime))]⟩ := by
  rcases h1 : lookupCol adf "Order_Date" with - | vdate
  · unfold transform_amazon_dataset at h
    rw [hne] at h
    simp [getColE, h1, exBind_error] at h
  rcases h2 : lookupCol adf "Order_Time" with - | vtime
  · unfold transform_amazon_dataset at h
    rw [hne] at h
    simp [getColE, h1, h2, exBind_ok, exBind_error] at h
  rcases h3 : lookupCol adf "Delivery_Time" with - | vdur
  · unfold transform_amazon_dataset at h
    rw [hne] at h
    simp [getColE, h1, h2, h3, exBind_ok, exBind_error] at h
  rcases h4 : lookupCol adf "Order_ID" with - | void
  · unfold transform_amazon_dataset at h
    rw [hne] at h
    simp [getColE, h1, h2, h3, h4, exBind_ok, exBind_error] at h
  rcases h5 : lookupCol adf "Store_Latitude" with - | vslat
  · unfold transform_amazon_dataset at h
    rw [hne] at h
    simp [getColE, h1, h2, h3, h4, h5, exBind_ok, exBind_error] at h
  rcases h6 : lookupCol adf "Store_Longitude" with - | vslng
  · unfold transform_amazon_dataset at h
    rw [hne] at h
    simp [getColE, h1, h2, h3, h4, h5, h6, exBind_ok, exBind_error] at h
  rcases h7 : lookupCol adf "Drop_Latitude" with - | vdlat
  · unfold transform_amazon_dataset at h
    rw [hne] at h
    simp [getColE, h1, h2, h3, h4, h5, h6, h7, exBind_ok, exBind_error] at h
  rcases h8 : lookupCol adf "Drop_Longitude" with - | vdlng
  · unfold transform_amazon_dataset at h
    rw [hne] at h
    simp [getColE, h1, h2, h3, h4, h5, h6, h7, h8, exBind_ok, exBind_error] at h
  rcases h9 : lookupCol adf "Traffic" with - | vtraf
  · unfold transform_amazon_dataset at h
    rw [hne] at h
    simp [getColE, h1, h2, h3, h4, h5, h6, h7, h8, h9, exBind_ok, exBind_error] at h
  refine ⟨vdate, vtime, vdur, void, vslat, vslng, vdlat, vdlng, vtraf,
    rfl, rfl, rfl, rfl, rfl, rfl, rfl, rfl, rfl, ?_⟩
  have hs := transform_amazon_ok_shape adf hne vdate vtime vdur void vslat vslng vdlat vdlng
    vtraf h1 h2 h3 h4 h5 h6 h7 h8 h9
  rw [hs] at h
  exact (Except.ok.injEq _ _).mp h.symm

theorem getD_zipWith {α : Type} (f : α → α → α) (a b : List α) (i : Nat) (d : α)
    (ha : i < a.length) (hb : i < b.length) :
    (List.zipWith f a b).getD i d = f (a.getD i d) (b.getD i d) := by
  induction a generalizing b i with
  | nil => simp at ha
  | cons x xs ih =>
    cases b with
    | nil => simp at hb
    | cons y ys =>
      cases i with
      | zero => rfl
      | succ n =>
        simp only [List.zipWith_cons_cons, List.getD_cons_succ]
        exact ih ys n (by simpa using ha) (by simpa using hb)

theorem lt_length_of_getD_num {l : List Cell} {i : Nat} {q : ℚ}
    (h : l.getD i Cell.null = Cell.num q) : i < l.length := by
  by_contra hge
  rw [List.getD_eq_default] at h
  · exact Cell.noConfusion h
  · omega

/-- C5: for every external-provider row, `transform_amazon_dataset`
yields a null weather field, a pickup timestamp that is the combination
of the order-date and order-time fields (missing order time defaults to
midnight), a delivery timestamp equal to pickup plus the stated
duration in minutes, and an ETA_target equal to (delivery − pickup) in
minutes, which round-trips exactly to the stated duration. -/
theorem c5_amazon_roundtrip (adf out : Df)
    (hne : isEmptyDf adf = false)
    (h : transform_amazon_dataset adf = Except.ok out) :
    (∀ cell ∈ colValsD out "weather", cell = Cell.null) ∧
    colValsD out "pickup_time" =
      List.zipWith combineDT (colValsD adf "Order_Date") (colValsD adf "Order_Time") ∧
    (∀ d t, combineDT (Cell.num d) (Cell.num t) = Cell.num (d + t)) ∧
    (∀ d, combineDT (Cell.num d) Cell.null = Cell.num d) ∧
    (∀ i p m, (colValsD out "pickup_time").getD i Cell.null = Cell.num p →
      (colValsD adf "Delivery_Time").getD i Cell.null = Cell.num m →
      (colValsD out "delivery_time").getD i Cell.null = Cell.num (p + 60 * m) ∧
      (colValsD out "ETA_target").getD i Cell.null = Cell.num m) := by
  obtain ⟨vdate, vtime, vdur, void, vslat, vslng, vdlat, vdlng, vtraf,
    h1, h2, h3, h4, h5, h6, h7, h8, h9, hout⟩ := transform_amazon_ok_inv adf out hne h
  subst hout
  have hdatecol : colValsD adf "Order_Date" = vdate := by
    unfold colValsD
    rw [h1]
    rfl
  have htimecol : colValsD adf "Order_Time" = vtime := by
    unfold colValsD
    rw [h2]
    rfl
  have hdurcol : colValsD adf "Delivery_Time" = vdur := by
    unfold colValsD
    rw [h3]
    rfl
  have hweather : colValsD
      (⟨[("order_id", void), ("Date", vdate),
        ("pickup_time", List.zipWith combineDT vdate vtime),
        ("delivery_time", List.zipWith addMin (List.zipWith combineDT vdate vtime) vdur),
        ("pickup_lat", vslat), ("pickup_lng", vslng), ("drop_lat", vdlat),
        ("drop_lng", vdlng), ("traffic", vtraf),
        ("weather", List.replicate (rowCount adf) Cell.null),
        ("ETA_target", List.zipWith etaCell
          (List.zipWith addMin (List.zipWith combineDT vdate vtime) vdur)
          (List.zipWith combineDT vdate vtime))]⟩ : Df) "weather" =
      List.replicate (rowCount adf) Cell.null := by
    simp [colValsD, lookupCol, List.find?]
  refine ⟨?_, ?_, fun d t => rfl, fun d => rfl, ?_⟩
  · intro cell hc
    rw [hweather] at hc
    exact List.eq_of_mem_replicate hc
  · rw [hdatecol, htimecol]
    simp [colValsD, lookupCol, List.find?]
  · intro i p m hp hm
    have hpcol : colValsD
        (⟨[("order_id", void), ("Date", vdate),
          ("pickup_time", List.zipWith combineDT vdate vtime),
          ("delivery_time", List.zipWith addMin (List.zipWith combineDT vdate vtime) vdur),
          ("pickup_lat", vslat), ("pickup_lng", vslng), ("drop_lat", vdlat),
          ("drop_lng", vdlng), ("traffic", vtraf),
          ("weather", List.replicate (rowCount adf) Cell.null),
          ("ETA_target", List.zipWith etaCell
            (List.zipWith addMin (List.zipWith combineDT vdate vtime) vdur)
            (List.zipWith combineDT vdate vtime))]⟩ : Df) "pickup_time" =
        List.zipWith combineDT vdate vtime := by
      simp [colValsD, lookupCol, List.find?]
    rw [hpcol] at hp
    rw [hdurcol] at hm
    have hiP : i < (List.zipWith combineDT vdate vtime).length := lt_length_of_getD_num hp
    have hiD : i < vdur.length := lt_length_of_getD_num hm
    have hdel : (List.zipWith addMin (List.zipWith combineDT vdate vtime) vdur).getD i Cell.null
        = Cell.num (p + 60 * m) := by
      rw [getD_zipWith addMin _ _ i Cell.null hiP hiD, hp, hm]
      rfl
    constructor
    · rw [show colValsD
          (⟨[("order_id", void), ("Date", vdate),
            ("pickup_time", List.zipWith combineDT vdate vtime),
            ("delivery_time", List.zipWith addMin (List.zipWith combineDT vdate vtime) vdur),
            ("pickup_lat", vslat), ("pickup_lng", vslng), ("drop_lat", vdlat),
            ("drop_lng", vdlng), ("traffic", vtraf),
            ("weather", List.replicate (rowCount adf) Cell.null),
            ("ETA_target", List.zipWith etaCell
              (List.zipWith addMin (List.zipWith combineDT vdate vtime) vdur)
              (List.zipWith combineDT vdate vtime))]⟩ : Df) "delivery_time" =
          List.zipWith addMin (List.zipWith combineDT vdate vtime) vdur from by
        simp [colValsD, lookupCol, List.find?]]
      exact hdel
    · rw [show colValsD
          (⟨[("order_id", void), ("Date", vdate),
            ("pickup_time", List.zipWith combineDT vdate vtime),
            ("delivery_time", List.zipWith addMin (List.zipWith combineDT vdate vtime) vdur),
            ("pickup_lat", vslat), ("pickup_lng", vslng), ("drop_lat", vdlat),
            ("drop_lng", vdlng), ("traffic", vtraf),
            ("weather", List.replicate (rowCount adf) Cell.null),
            ("ETA_target", List.zipWith etaCell
              (List.zipWith addMin (List.zipWith combineDT vdate vtime) vdur)
              (List.zipWith combineDT vdate vtime))]⟩ : Df) "ETA_target" =
          List.zipWith etaCell
            (List.zipWith addMin (List.zipWith combineDT vdate vtime) vdur)
            (List.zipWith combineDT vdate vtime) from by
        simp [colValsD, lookupCol, List.find?]]
      have hiD2 : i < (List.zipWith addMin (List.zipWith combineDT vdate vtime) vdur).length :=
        lt_length_of_getD_num hdel
      rw [getD_zipWith etaCell _ _ i Cell.null hiD2 hiP, hdel, hp]
      show Cell.num ((p + 60 * m - p) / 60) = Cell.num m
      congr 1
      ring

/-- C5 witness: a concrete one-row external-provider table (order date
2025-02-01 as midnight epoch seconds, order time 10:00:00, stated
duration 45 minutes): the delivery timestamp is pickup + 45 minutes and
the recorded ETA_target is exactly 45. -/
theorem c5_witness :
    ∃ out, transform_amazon_dataset
        ⟨[("Order_Date", [Cell.num 1738368000]), ("Order_Time", [Cell.num 36000]),
          ("Delivery_Time", [Cell.num 45]), ("Order_ID", [Cell.num 1]),
          ("Store_Latitude", [Cell.num 10]), ("Store_Longitude", [Cell.num 11]),
          ("Drop_Latitude", [Cell.num 12]), ("Drop_Longitude", [Cell.num 13]),
          ("Traffic", [Cell.num 0])]⟩ = Except.ok out ∧
      (colValsD out "delivery_time").getD 0 Cell.null =
        Cell.num ((1738368000 + 36000) + 60 * 45) ∧
      (colValsD out "ETA_target").getD 0 Cell.null = Cell.num 45 := by
  have hshape := transform_amazon_ok_shape
    ⟨[("Order_Date", [Cell.num 1738368000]), ("Order_Time", [Cell.num 36000]),
      ("Delivery_Time", [Cell.num 45]), ("Order_ID", [Cell.num 1]),
      ("Store_Latitude", [Cell.num 10]), ("Store_Longitude", [Cell.num 11]),
      ("Drop_Latitude", [Cell.num 12]), ("Drop_Longitude", [Cell.num 13]),
      ("Traffic", [Cell.num 0])]⟩ (by decide)
    [Cell.num 1738368000] [Cell.num 36000] [Cell.num 45] [Cell.num 1] [Cell.num 10]
    [Cell.num 11] [Cell.num 12] [Cell.num 13] [Cell.num 0]
    (by decide) (by decide) (by decide) (by decide) (by decide) (by decide) (by decide)
    (by decide) (by decide)
  refine ⟨_, hshape, ?_⟩
  have hc := (c5_amazon_roundtrip
    ⟨[("Order_Date", [Cell.num 1738368000]), ("Order_Time", [Cell.num 36000]),
      ("Delivery_Time", [Cell.num 45]), ("Order_ID", [Cell.num 1]),
      ("Store_Latitude", [Cell.num 10]), ("Store_Longitude", [Cell.num 11]),
      ("Drop_Latitude", [Cell.num 12]), ("Drop_Longitude", [Cell.num 13]),
      ("Traffic", [Cell.num 0])]⟩ _ (by decide) hshape).2.2.2.2 0
    (1738368000 + 36000) 45 rfl (by decide)
  exact hc

theorem mem_cols_of_lookupCol_some {df : Df} {c : String} {v : List Cell}
    (h : lookupCol df c = some v) : ∃ p ∈ df.cols, p.1 = c ∧ p.2 = v := by
  unfold lookupCol at h
  rcases hf : df.cols.find? (fun p => p.1 == c) with - | p
  · rw [hf] at h
    exact Option.noConfusion h
  · rw [hf] at h
    obtain ⟨hp, -⟩ := find?_first _ _ _ hf
    have h2 : p.2 = v := by
      injection h
    exact ⟨p, List.mem_of_find?_eq_some hf, beq_iff_eq.mp hp, h2⟩

theorem length_getColD (df : Df) (c : String)
    (hw : ∀ p ∈ df.cols, p.2.length = rowCount df) :
    (getColD df c).length = rowCount df := by
  unfold getColD
  rcases hf : lookupCol df c with - | v
  · simp
  · obtain ⟨p, hp, -, hv⟩ := mem_cols_of_lookupCol_some hf
    rw [← hv]
    exact hw p hp

theorem lookupCol_map_pair (names : List String) (f : String → List Cell) (c : String)
    (h : c ∈ names) :
    lookupCol ⟨names.map (fun n => (n, f n))⟩ c = some (f c) := by
  induction names with
  | nil => simp at h
  | cons n rest ih =>
    by_cases he : n = c
    · subst he
      unfold lookupCol
      simp [List.find?]
    · have hc : c ∈ rest := by
        rcases List.mem_cons.mp h with h1 | h1
        · exact absurd h1.symm he
        · exact h1
      unfold lookupCol at ih ⊢
      simp only [List.map_cons, List.find?]
      rw [show ((n, f n).1 == c) = false from beq_eq_false_iff_ne.mpr he]
      exact ih hc

theorem map_fst_map_pair (l : List String) (f : String → List Cell) :
    List.map Prod.fst (l.map (fun n => (n, f n))) = l := by
  induction l with
  | nil => rfl
  | cons a t ih => simp [ih]

theorem namesOf_concat (df1 df2 : Df) :
    namesOf (concatIgnoreIndex df1 df2) =
      namesOf df1 ++ (namesOf df2).filter (fun c => !(namesOf df1).contains c) := by
  unfold concatIgnoreIndex namesOf
  exact map_fst_map_pair _ _

theorem colValsD_concat (df1 df2 : Df) (c : String)
    (h : c ∈ namesOf df1 ++ (namesOf df2).filter (fun x => !(namesOf df1).contains x)) :
    colValsD (concatIgnoreIndex df1 df2) c = getColD df1 c ++ getColD df2 c := by
  unfold concatIgnoreIndex colValsD
  rw [lookupCol_map_pair _ _ _ h]
  rfl

theorem getColD_eq_colValsD_of_mem {df : Df} {c : String} (h : c ∈ namesOf df) :
    getColD df c = colValsD df c := by
  unfold getColD colValsD
  rcases hf : lookupCol df c with - | v
  · rw [← lookupCol_isSome_iff, hf] at h
    exact Bool.noConfusion h
  · rfl

theorem align_unfold (ddf adf df1 df2 : Df)
    (h1 : transform_delivery_dataset ddf = Except.ok df1)
    (h2 : transform_amazon_dataset adf = Except.ok df2) :
    align ddf adf =
      (if isEmptyDf df1 && isEmptyDf df2 then Except.ok emptyDf
       else if isEmptyDf df1 then Except.ok df2
       else if isEmptyDf df2 then Except.ok df1
       else Except.ok (concatIgnoreIndex df1 df2)) := by
  unfold align
  rw [h1, exBind_ok, h2, exBind_ok]

/-- C6: `align` on two empty transformed sides returns the empty table
with zero rows; if exactly one transformed side is empty it returns the
other side unchanged; if both are non-empty it returns their
concatenation — the local rows first and the external-provider rows
appended after them in order (each shared column is the local column
followed by the provider column), the column list is the local one
followed by any provider-only names, and the row count is the sum of
the two row counts. -/
theorem c6_align_concat (ddf adf df1 df2 : Df)
    (h1 : transform_delivery_dataset ddf = Except.ok df1)
    (h2 : transform_amazon_dataset adf = Except.ok df2) :
    (isEmptyDf df1 = true → isEmptyDf df2 = true →
      align ddf adf = Except.ok emptyDf ∧ rowCount emptyDf = 0) ∧
    (isEmptyDf df1 = true → isEmptyDf df2 = false → align ddf adf = Except.ok df2) ∧
    (isEmptyDf df1 = false → isEmptyDf df2 = true → align ddf adf = Except.ok df1) ∧
    (isEmptyDf df1 = false → isEmptyDf df2 = false →
      align ddf adf = Except.ok (concatIgnoreIndex df1 df2) ∧
      namesOf (concatIgnoreIndex df1 df2) =
        namesOf df1 ++ (namesOf df2).filter (fun c => !(namesOf df1).contains c) ∧
      ((∀ p ∈ df1.cols, p.2.length = rowCount df1) →
       (∀ p ∈ df2.cols, p.2.length = rowCount df2) →
        rowCount (concatIgnoreIndex df1 df2) = rowCount df1 + rowCount df2) ∧
      (∀ c, c ∈ namesOf df1 → c ∈ namesOf df2 →
        colValsD (concatIgnoreIndex df1 df2) c = colValsD df1 c ++ colValsD df2 c)) := by
  have hu := align_unfold ddf adf df1 df2 h1 h2
  refine ⟨?_, ?_, ?_, ?_⟩
  · intro he1 he2
    rw [hu, he1, he2]
    exact ⟨rfl, rfl⟩
  · intro he1 he2
    rw [hu, he1, he2]
    rfl
  · intro he1 he2
    rw [hu, he1, he2]
    rfl
  · intro he1 he2
    rw [hu, he1, he2]
    refine ⟨rfl, namesOf_concat df1 df2, ?_, ?_⟩
    · intro hw1 hw2
      -- the first column of the concatenation is the first column of df1
      have hne1 : df1.cols ≠ [] := by
        intro he
        unfold isEmptyDf at he1
        rw [he] at he1
        simp at he1
      obtain ⟨p0, rest, hc1⟩ : ∃ p0 rest, df1.cols = p0 :: rest := by
        rcases hl : df1.cols with - | ⟨a, b⟩
        · exact absurd hl hne1
        · exact ⟨a, b, rfl⟩
      have hn0 : namesOf df1 = p0.1 :: (namesOf ⟨rest⟩) := by
        unfold namesOf
        rw [hc1]
        rfl
      have hcc : rowCount (concatIgnoreIndex df1 df2) =
          (getColD df1 p0.1 ++ getColD df2 p0.1).length := by
        unfold concatIgnoreIndex rowCount
        rw [hn0]
        rfl
      rw [hcc, List.length_append, length_getColD df1 p0.1 hw1, length_getColD df2 p0.1 hw2]
    · intro c hm1 hm2
      have hmm : c ∈ namesOf df1 ++
          (namesOf df2).filter (fun x => !(namesOf df1).contains x) :=
        List.mem_append.mpr (Or.inl hm1)
      rw [colValsD_concat df1 df2 c hmm, getColD_eq_colValsD_of_mem hm1,
        getColD_eq_colValsD_of_mem hm2]


/-- C6 witness: aligning a concrete one-row local table with a concrete
one-row external-provider table returns their concatenation, and
aligning an empty local table with the same provider table returns the
transformed provider table unchanged. -/
theorem c6_witness :
    align ⟨[("accept_time", [Cell.num 0]), ("delivery_time", [Cell.num 60]),
        ("order_id", [Cell.num 7]), ("accept_gps_lat", [Cell.num 1]),
        ("lat", [Cell.num 2]), ("accept_gps_lng", [Cell.num 3]),
        ("lng", [Cell.num 4]), ("delivery_gps_lat", [Cell.num 5]),
        ("delivery_gps_lng", [Cell.num 6])]⟩
      ⟨[("Order_Date", [Cell.num 0]), ("Order_Time", [Cell.num 36000]),
        ("Delivery_Time", [Cell.num 45]), ("Order_ID", [Cell.num 1]),
        ("Store_Latitude", [Cell.num 10]), ("Store_Longitude", [Cell.num 11]),
        ("Drop_Latitude", [Cell.num 12]), ("Drop_Longitude", [Cell.num 13]),
        ("Traffic", [Cell.num 0])]⟩ = Except.ok (concatIgnoreIndex
      ⟨[("order_id", [Cell.num 7]),
        ("Date", (([Cell.num 0]).map toDatetimeCell).map dateCell),
        ("pickup_time", ([Cell.num 0]).map toDatetimeCell),
        ("delivery_time", ([Cell.num 60]).map toDatetimeCell),
        ("pickup_lat", List.zipWith fillnaCell [Cell.num 1] [Cell.num 2]),
        ("pickup_lng", List.zipWith fillnaCell [Cell.num 3] [Cell.num 4]),
        ("drop_lat", [Cell.num 5]),
        ("drop_lng", [Cell.num 6]),
        ("weather", getColD ⟨[("accept_time", [Cell.num 0]), ("delivery_time", [Cell.num 60]),
        ("order_id", [Cell.num 7]), ("accept_gps_lat", [Cell.num 1]),
        ("lat", [Cell.num 2]), ("accept_gps_lng", [Cell.num 3]),
        ("lng", [Cell.num 4]), ("delivery_gps_lat", [Cell.num 5]),
        ("delivery_gps_lng", [Cell.num 6])]⟩ "Weather_Label"),
        ("traffic", getColD ⟨[("accept_time", [Cell.num 0]), ("delivery_time", [Cell.num 60]),
        ("order_id", [Cell.num 7]), ("accept_gps_lat", [Cell.num 1]),
        ("lat", [Cell.num 2]), ("accept_gps_lng", [Cell.num 3]),
        ("lng", [Cell.num 4]), ("delivery_gps_lat", [Cell.num 5]),
        ("delivery_gps_lng", [Cell.num 6])]⟩ "Traffic_Label"),
        ("ETA_target", List.zipWith etaCell (([Cell.num 60]).map toDatetimeCell)
          (([Cell.num 0]).map toDatetimeCell))]⟩
      ⟨[("order_id", [Cell.num 1]),
        ("Date", [Cell.num 0]),
        ("pickup_time", List.zipWith combineDT [Cell.num 0] [Cell.num 36000]),
        ("delivery_time", List.zipWith addMin
          (List.zipWith combineDT [Cell.num 0] [Cell.num 36000]) [Cell.num 45]),
        ("pickup_lat", [Cell.num 10]),
        ("pickup_lng", [Cell.num 11]),
        ("drop_lat", [Cell.num 12]),
        ("drop_lng", [Cell.num 13]),
        ("traffic", [Cell.num 0]),
        ("weather", List.replicate (rowCount ⟨[("Order_Date", [Cell.num 0]), ("Order_Time", [Cell.num 36000]),
        ("Delivery_Time", [Cell.num 45]), ("Order_ID", [Cell.num 1]),
        ("Store_Latitude", [Cell.num 10]), ("Store_Longitude", [Cell.num 11]),
        ("Drop_Latitude", [Cell.num 12]), ("Drop_Longitude", [Cell.num 13]),
        ("Traffic", [Cell.num 0])]⟩) Cell.null),
        ("ETA_target", List.zipWith etaCell
          (List.zipWith addMin (List.zipWith combineDT [Cell.num 0] [Cell.num 36000])
            [Cell.num 45])
          (List.zipWith combineDT [Cell.num 0] [Cell.num 36000]))]⟩) ∧
    align emptyDf
      ⟨[("Order_Date", [Cell.num 0]), ("Order_Time", [Cell.num 36000]),
        ("Delivery_Time", [Cell.num 45]), ("Order_ID", [Cell.num 1]),
        ("Store_Latitude", [Cell.num 10]), ("Store_Longitude", [Cell.num 11]),
        ("Drop_Latitude", [Cell.num 12]), ("Drop_Longitude", [Cell.num 13]),
        ("Traffic", [Cell.num 0])]⟩ = Except.ok
      ⟨[("order_id", [Cell.num 1]),
        ("Date", [Cell.num 0]),
        ("pickup_time", List.zipWith combineDT [Cell.num 0] [Cell.num 36000]),
        ("delivery_time", List.zipWith addMin
          (List.zipWith combineDT [Cell.num 0] [Cell.num 36000]) [Cell.num 45]),
        ("pickup_lat", [Cell.num 10]),
        ("pickup_lng", [Cell.num 11]),
        ("drop_lat", [Cell.num 12]),
        ("drop_lng", [Cell.num 13]),
        ("traffic", [Cell.num 0]),
        ("weather", List.replicate (rowCount ⟨[("Order_Date", [Cell.num 0]), ("Order_Time", [Cell.num 36000]),
        ("Delivery_Time", [Cell.num 45]), ("Order_ID", [Cell.num 1]),
        ("Store_Latitude", [Cell.num 10]), ("Store_Longitude", [Cell.num 11]),
        ("Drop_Latitude", [Cell.num 12]), ("Drop_Longitude", [Cell.num 13]),
        ("Traffic", [Cell.num 0])]⟩) Cell.null),
        ("ETA_target", List.zipWith etaCell
          (List.zipWith addMin (List.zipWith combineDT [Cell.num 0] [Cell.num 36000])
            [Cell.num 45])
          (List.zipWith combineDT [Cell.num 0] [Cell.num 36000]))]⟩ := by
  have hsh1 := transform_delivery_ok_shape ⟨[("accept_time", [Cell.num 0]), ("delivery_time", [Cell.num 60]),
        ("order_id", [Cell.num 7]), ("accept_gps_lat", [Cell.num 1]),
        ("lat", [Cell.num 2]), ("accept_gps_lng", [Cell.num 3]),
        ("lng", [Cell.num 4]), ("delivery_gps_lat", [Cell.num 5]),
        ("delivery_gps_lng", [Cell.num 6])]⟩
    (by decide) [Cell.num 0] [Cell.num 60] [Cell.num 7] [Cell.num 1] [Cell.num 2]
    [Cell.num 3] [Cell.num 4] [Cell.num 5] [Cell.num 6]
    (by decide) (by decide) (by decide) (by decide) (by decide) (by decide) (by decide)
    (by decide) (by decide)
  have hsh2 := transform_amazon_ok_shape ⟨[("Order_Date", [Cell.num 0]), ("Order_Time", [Cell.num 36000]),
        ("Delivery_Time", [Cell.num 45]), ("Order_ID", [Cell.num 1]),
        ("Store_Latitude", [Cell.num 10]), ("Store_Longitude", [Cell.num 11]),
        ("Drop_Latitude", [Cell.num 12]), ("Drop_Longitude", [Cell.num 13]),
        ("Traffic", [Cell.num 0])]⟩
    (by decide) [Cell.num 0] [Cell.num 36000] [Cell.num 45] [Cell.num 1] [Cell.num 10]
    [Cell.num 11] [Cell.num 12] [Cell.num 13] [Cell.num 0]
    (by decide) (by decide) (by decide) (by decide) (by decide) (by decide) (by decide)
    (by decide) (by decide)
  constructor
  · exact ((c6_align_concat _ _ _ _ hsh1 hsh2).2.2.2 (by decide) (by decide)).1
  · exact (c6_align_concat emptyDf _ emptyDf _ rfl hsh2).2.1 (by decide) (by decide)

/-- Inversion of a successful `transform_delivery_dataset` run on a
non-empty input: every required column was present and the output has
the literal column layout of the source. -/
theorem transform_delivery_ok_inv (ddf out : Df) (hne : isEmptyDf ddf = false)
    (h : transform_delivery_dataset ddf = Except.ok out) :
    ∃ va vd vo p1 p2 p3 p4 p5 p6,
      lookupCol ddf "accept_time" = some va ∧
      lookupCol ddf "delivery_time" = some vd ∧
      lookupCol ddf "order_id" = some vo ∧
      out = ⟨[("order_id", vo),
        ("Date", (va.map toDatetimeCell).map dateCell),
        ("pickup_time", va.map toDatetimeCell),
        ("delivery_time", vd.map toDatetimeCell),
        ("pickup_lat", List.zipWith fillnaCell p1 p2),
        ("pickup_lng", List.zipWith fillnaCell p3 p4),
        ("drop_lat", p5),
        ("drop_lng", p6),
        ("weather", getColD ddf "Weather_Label"),
        ("traffic", getColD ddf "Traffic_Label"),
        ("ETA_target", List.zipWith etaCell (vd.map toDatetimeCell) (va.map toDatetimeCell))]⟩ := by
  rcases h1 : lookupCol ddf "accept_time" with - | va
  · unfold transform_delivery_dataset at h
    rw [hne] at h
    simp [getColE, h1, exBind_error] at h
  rcases h2 : lookupCol ddf "delivery_time" with - | vd
  · unfold transform_delivery_dataset at h
    rw [hne] at h
    simp [getColE, h1, h2, exBind_ok, exBind_error] at h
  rcases h3 : lookupCol ddf "order_id" with - | vo
  · unfold transform_delivery_dataset at h
    rw [hne] at h
    simp [getColE, h1, h2, h3, exBind_ok, exBind_error] at h
  rcases h4 : lookupCol ddf "accept_gps_lat" with - | p1
  · unfold transform_delivery_dataset at h
    rw [hne] at h
    simp [getColE, h1, h2, h3, h4, exBind_ok, exBind_error] at h
  rcases h5 : lookupCol ddf "lat" with - | p2
  · unfold transform_delivery_dataset at h
    rw [hne] at h
    simp [getColE, h1, h2, h3, h4, h5, exBind_ok, exBind_error] at h
  rcases h6 : lookupCol ddf "accept_gps_lng" with - | p3
  · unfold transform_delivery_dataset at h
    rw [hne] at h
    simp [getColE, h1, h2, h3, h4, h5, h6, exBind_ok, exBind_error] at h
  rcases h7 : lookupCol ddf "lng" with - | p4
  · unfold transform_delivery_dataset at h
    rw [hne] at h
    simp [getColE, h1, h2, h3, h4, h5, h6, h7, exBind_ok, exBind_error] at h
  rcases h8 : lookupCol ddf "delivery_gps_lat" with - | p5
  · unfold transform_delivery_dataset at h
    rw [hne] at h
    simp [getColE, h1, h2, h3, h4, h5, h6, h7, h8, exBind_ok, exBind_error] at h
  rcases h9 : lookupCol ddf "delivery_gps_lng" with - | p6
  · unfold transform_delivery_dataset at h
    rw [hne] at h
    simp [getColE, h1, h2, h3, h4, h5, h6, h7, h8, h9, exBind_ok, exBind_error] at h
  refine ⟨va, vd, vo, p1, p2, p3, p4, p5, p6, rfl, rfl, rfl, ?_⟩
  have hs := transform_delivery_ok_shape ddf hne va vd vo p1 p2 p3 p4 p5 p6
    h1 h2 h3 h4 h5 h6 h7 h8 h9
  rw [hs] at h
  exact (Except.ok.injEq _ _).mp h.symm

theorem nonempty_input_delivery (ddf df1 : Df)
    (h1 : transform_delivery_dataset ddf = Except.ok df1)
    (hne1 : isEmptyDf df1 = false) : isEmptyDf ddf = false := by
  rcases he : isEmptyDf ddf with - | -
  · rfl
  · unfold transform_delivery_dataset at h1
    rw [he] at h1
    simp at h1
    rw [← h1] at hne1
    exact Bool.noConfusion hne1

theorem nonempty_input_amazon (adf df2 : Df)
    (h2 : transform_amazon_dataset adf = Except.ok df2)
    (hne2 : isEmptyDf df2 = false) : isEmptyDf adf = false := by
  rcases he : isEmptyDf adf with - | -
  · rfl
  · unfold transform_amazon_dataset at h2
    rw [he] at h2
    simp at h2
    rw [← h2] at hne2
    exact Bool.noConfusion hne2

/-- C9 counterexample: with an empty local side, `align` returns the
transformed external-provider table unchanged, and its column order is
order_id, Date, pickup_time, delivery_time, pickup_lat, pickup_lng,
drop_lat, drop_lng, traffic, weather, ETA_target — traffic and weather
are swapped relative to the claimed canonical order. -/
theorem c9_counterexample :
    ∃ res, align emptyDf
        ⟨[("Order_Date", [Cell.num 0]), ("Order_Time", [Cell.num 36000]),
          ("Delivery_Time", [Cell.num 45]), ("Order_ID", [Cell.num 1]),
          ("Store_Latitude", [Cell.num 10]), ("Store_Longitude", [Cell.num 11]),
          ("Drop_Latitude", [Cell.num 12]), ("Drop_Longitude", [Cell.num 13]),
          ("Traffic", [Cell.num 0])]⟩ = Except.ok res ∧
      isEmptyDf res = false ∧
      namesOf res = amazonCols ∧
      amazonCols ≠ canonicalCols := by
  have hsh2 := transform_amazon_ok_shape
    ⟨[("Order_Date", [Cell.num 0]), ("Order_Time", [Cell.num 36000]),
      ("Delivery_Time", [Cell.num 45]), ("Order_ID", [Cell.num 1]),
      ("Store_Latitude", [Cell.num 10]), ("Store_Longitude", [Cell.num 11]),
      ("Drop_Latitude", [Cell.num 12]), ("Drop_Longitude", [Cell.num 13]),
      ("Traffic", [Cell.num 0])]⟩
    (by decide) [Cell.num 0] [Cell.num 36000] [Cell.num 45] [Cell.num 1] [Cell.num 10]
    [Cell.num 11] [Cell.num 12] [Cell.num 13] [Cell.num 0]
    (by decide) (by decide) (by decide) (by decide) (by decide) (by decide) (by decide)
    (by decide) (by decide)
  have halign := align_unfold emptyDf _ emptyDf _ rfl hsh2
  refine ⟨⟨[("order_id", [Cell.num 1]),
        ("Date", [Cell.num 0]),
        ("pickup_time", List.zipWith combineDT [Cell.num 0] [Cell.num 36000]),
        ("delivery_time", List.zipWith addMin
          (List.zipWith combineDT [Cell.num 0] [Cell.num 36000]) [Cell.num 45]),
        ("pickup_lat", [Cell.num 10]),
        ("pickup_lng", [Cell.num 11]),
        ("drop_lat", [Cell.num 12]),
        ("drop_lng", [Cell.num 13]),
        ("traffic", [Cell.num 0]),
        ("weather", List.replicate (rowCount
          ⟨[("Order_Date", [Cell.num 0]), ("Order_Time", [Cell.num 36000]),
            ("Delivery_Time", [Cell.num 45]), ("Order_ID", [Cell.num 1]),
            ("Store_Latitude", [Cell.num 10]), ("Store_Longitude", [Cell.num 11]),
            ("Drop_Latitude", [Cell.num 12]), ("Drop_Longitude", [Cell.num 13]),
            ("Traffic", [Cell.num 0])]⟩) Cell.null),
        ("ETA_target", List.zipWith etaCell
          (List.zipWith addMin (List.zipWith combineDT [Cell.num 0] [Cell.num 36000])
            [Cell.num 45])
          (List.zipWith combineDT [Cell.num 0] [Cell.num 36000]))]⟩, ?_, by decide, by decide, by decide⟩
  rw [halign]
  rw [show isEmptyDf emptyDf = true from rfl]
  rw [show isEmptyDf
      (⟨[("order_id", [Cell.num 1]),
        ("Date", [Cell.num 0]),
        ("pickup_time", List.zipWith combineDT [Cell.num 0] [Cell.num 36000]),
        ("delivery_time", List.zipWith addMin
          (List.zipWith combineDT [Cell.num 0] [Cell.num 36000]) [Cell.num 45]),
        ("pickup_lat", [Cell.num 10]),
        ("pickup_lng", [Cell.num 11]),
        ("drop_lat", [Cell.num 12]),
        ("drop_lng", [Cell.num 13]),
        ("traffic", [Cell.num 0]),
        ("weather", List.replicate (rowCount
          ⟨[("Order_Date", [Cell.num 0]), ("Order_Time", [Cell.num 36000]),
            ("Delivery_Time", [Cell.num 45]), ("Order_ID", [Cell.num 1]),
            ("Store_Latitude", [Cell.num 10]), ("Store_Longitude", [Cell.num 11]),
            ("Drop_Latitude", [Cell.num 12]), ("Drop_Longitude", [Cell.num 13]),
            ("Traffic", [Cell.num 0])]⟩) Cell.null),
        ("ETA_target", List.zipWith etaCell
          (List.zipWith addMin (List.zipWith combineDT [Cell.num 0] [Cell.num 36000])
            [Cell.num 45])
          (List.zipWith combineDT [Cell.num 0] [Cell.num 36000]))]⟩ : Df) = false from rfl]
  rfl

/-- C9 (amended): every non-empty canonical table produced by `align`
has exactly the columns order_id, Date, pickup_time, delivery_time,
pickup_lat, pickup_lng, drop_lat, drop_lng, weather, traffic,
ETA_target in that order — except when only the external-provider side
is non-empty, in which case the table is the transformed provider table
whose last three columns are traffic, weather, ETA_target (traffic and
weather swapped). -/
theorem c9_canonical_columns_amended (ddf adf df1 df2 : Df)
    (h1 : transform_delivery_dataset ddf = Except.ok df1)
    (h2 : transform_amazon_dataset adf = Except.ok df2) :
    (isEmptyDf ddf = false → namesOf df1 = canonicalCols) ∧
    (isEmptyDf adf = false → namesOf df2 = amazonCols) ∧
    (isEmptyDf df1 = false → isEmptyDf df2 = false →
      ∃ res, align ddf adf = Except.ok res ∧ namesOf res = canonicalCols) ∧
    (isEmptyDf df1 = true → isEmptyDf df2 = false →
      ∃ res, align ddf adf = Except.ok res ∧ namesOf res = amazonCols) ∧
    (isEmptyDf df1 = false → isEmptyDf df2 = true →
      ∃ res, align ddf adf = Except.ok res ∧ namesOf res = canonicalCols) := by
  have hnames1 : isEmptyDf ddf = false → namesOf df1 = canonicalCols := by
    intro hne
    obtain ⟨va, vd, vo, p1, p2, p3, p4, p5, p6, -, -, -, hout⟩ :=
      transform_delivery_ok_inv ddf df1 hne h1
    rw [hout]
    rfl
  have hnames2 : isEmptyDf adf = false → namesOf df2 = amazonCols := by
    intro hne
    obtain ⟨vdate, vtime, vdur, void, vslat, vslng, vdlat, vdlng, vtraf,
      -, -, -, -, -, -, -, -, -, hout⟩ := transform_amazon_ok_inv adf df2 hne h2
    rw [hout]
    rfl
  have hu := align_unfold ddf adf df1 df2 h1 h2
  refine ⟨hnames1, hnames2, ?_, ?_, ?_⟩
  · intro he1 he2
    refine ⟨concatIgnoreIndex df1 df2, ?_, ?_⟩
    · rw [hu, he1, he2]
      rfl
    · have hn1 := hnames1 (nonempty_input_delivery ddf df1 h1 he1)
      have hn2 := hnames2 (nonempty_input_amazon adf df2 h2 he2)
      rw [namesOf_concat, hn1, hn2]
      decide
  · intro he1 he2
    refine ⟨df2, ?_, hnames2 (nonempty_input_amazon adf df2 h2 he2)⟩
    rw [hu, he1, he2]
    rfl
  · intro he1 he2
    refine ⟨df1, ?_, hnames1 (nonempty_input_delivery ddf df1 h1 he1)⟩
    rw [hu, he1, he2]
    simp [he1]


/-- C9 witness: aligning the concrete one-row local and provider tables
(both sides non-empty) yields a table whose columns are exactly the
canonical ones in the claimed order. -/
theorem c9_witness :
    ∃ res, align ⟨[("accept_time", [Cell.num 0]), ("delivery_time", [Cell.num 60]),
        ("order_id", [Cell.num 7]), ("accept_gps_lat", [Cell.num 1]),
        ("lat", [Cell.num 2]), ("accept_gps_lng", [Cell.num 3]),
        ("lng", [Cell.num 4]), ("delivery_gps_lat", [Cell.num 5]),
        ("delivery_gps_lng", [Cell.num 6])]⟩
        ⟨[("Order_Date", [Cell.num 0]), ("Order_Time", [Cell.num 36000]),
        ("Delivery_Time", [Cell.num 45]), ("Order_ID", [Cell.num 1]),
        ("Store_Latitude", [Cell.num 10]), ("Store_Longitude", [Cell.num 11]),
        ("Drop_Latitude", [Cell.num 12]), ("Drop_Longitude", [Cell.num 13]),
        ("Traffic", [Cell.num 0])]⟩ = Except.ok res ∧
      namesOf res = canonicalCols := by
  have hsh1 := transform_delivery_ok_shape ⟨[("accept_time", [Cell.num 0]), ("delivery_time", [Cell.num 60]),
        ("order_id", [Cell.num 7]), ("accept_gps_lat", [Cell.num 1]),
        ("lat", [Cell.num 2]), ("accept_gps_lng", [Cell.num 3]),
        ("lng", [Cell.num 4]), ("delivery_gps_lat", [Cell.num 5]),
        ("delivery_gps_lng", [Cell.num 6])]⟩
    (by decide) [Cell.num 0] [Cell.num 60] [Cell.num 7] [Cell.num 1] [Cell.num 2]
    [Cell.num 3] [Cell.num 4] [Cell.num 5] [Cell.num 6]
    (by decide) (by decide) (by decide) (by decide) (by decide) (by decide) (by decide)
    (by decide) (by decide)
  have hsh2 := transform_amazon_ok_shape ⟨[("Order_Date", [Cell.num 0]), ("Order_Time", [Cell.num 36000]),
        ("Delivery_Time", [Cell.num 45]), ("Order_ID", [Cell.num 1]),
        ("Store_Latitude", [Cell.num 10]), ("Store_Longitude", [Cell.num 11]),
        ("Drop_Latitude", [Cell.num 12]), ("Drop_Longitude", [Cell.num 13]),
        ("Traffic", [Cell.num 0])]⟩
    (by decide) [Cell.num 0] [Cell.num 36000] [Cell.num 45] [Cell.num 1] [Cell.num 10]
    [Cell.num 11] [Cell.num 12] [Cell.num 13] [Cell.num 0]
    (by decide) (by decide) (by decide) (by decide) (by decide) (by decide) (by decide)
    (by decide) (by decide)
  exact (c9_canonical_columns_amended _ _ _ _ hsh1 hsh2).2.2.1 (by decide) (by decide)

theorem namesOf_map_snd (df : Df) (g : String × List Cell → List Cell) :
    namesOf ⟨df.cols.map (fun p => (p.1, g p))⟩ = namesOf df := by
  unfold namesOf
  rcases df with ⟨cols⟩
  induction cols with
  | nil => rfl
  | cons p t ih =>
    simp only [List.map_cons]
    rw [show List.map Prod.fst (List.map (fun p => (p.1, g p)) t) = List.map Prod.fst t from ih]

theorem namesOf_dropna {df out : Df} {c : String}
    (h : dropnaSubset df c = Except.ok out) : namesOf out = namesOf df := by
  unfold dropnaSubset at h
  rcases hf : lookupCol df c with - | kv
  · rw [hf] at h
    exact Except.noConfusion h
  · rw [hf] at h
    injection h with h
    rw [← h]
    exact namesOf_map_snd df _

theorem namesOf_sortByCol (df : Df) (c : String) :
    namesOf (sortByCol df c) = namesOf df := by
  unfold sortByCol
  exact namesOf_map_snd df _

theorem namesOf_mergeAsof (ldf rdf : Df) (lk rk : String) :
    namesOf (mergeAsofDf ldf rdf lk rk) = namesOf ldf ++ namesOf rdf := by
  unfold mergeAsofDf namesOf
  simp only [List.map_append]
  congr 1
  exact namesOf_map_snd rdf _

theorem namesOf_renameCol (df : Df) (a b : String) :
    namesOf (renameCol df a b) = (namesOf df).map (fun n => if n == a then b else n) := by
  unfold namesOf renameCol
  rcases df with ⟨cols⟩
  induction cols with
  | nil => rfl
  | cons p t ih =>
    simp only [List.map_cons]
    rw [show List.map Prod.fst
        (List.map (fun p => if p.1 == a then (b, p.2) else p) t) =
        List.map (fun n => if n == a then b else n) (List.map Prod.fst t) from ih]
    by_cases hp : p.1 == a
    · simp [hp]
    · simp only [hp, Bool.false_eq_true, if_false]

theorem namesOf_addCol (df : Df) (c : String) (vals : List Cell) :
    namesOf (addCol df c vals) = namesOf df ++ [c] := by
  unfold namesOf addCol
  simp

/-- `enrich_with_weather` succeeds whenever the delivery table has an
`accept_time` column and the weather table has the resolved timestamp
column, and the resulting column list is the delivery columns followed
by the weather columns (with the timestamp column renamed to
`time_weather`) and the appended `Weather_Label`. -/
theorem enrich_with_weather_ok (d1 w1 : Df) (c : String)
    (ha : "accept_time" ∈ namesOf d1) (hc : c ∈ namesOf w1) :
    ∃ merged, enrich_with_weather d1 w1 c = Except.ok merged ∧
      namesOf merged =
        (if c == "time_weather" then namesOf d1 ++ namesOf w1
         else (namesOf d1 ++ namesOf w1).map (fun n => if n == c then "time_weather" else n))
          ++ ["Weather_Label"] := by
  obtain ⟨kva, hkva⟩ : ∃ kv, lookupCol d1 "accept_time" = some kv := by
    rcases hf : lookupCol d1 "accept_time" with - | kv
    · rw [← lookupCol_isSome_iff, hf] at ha
      exact Bool.noConfusion ha
    · exact ⟨kv, rfl⟩
  obtain ⟨kvw, hkvw⟩ : ∃ kv, lookupCol w1 c = some kv := by
    rcases hf : lookupCol w1 c with - | kv
    · rw [← lookupCol_isSome_iff, hf] at hc
      exact Bool.noConfusion hc
    · exact ⟨kv, rfl⟩
  have hd1 : dropnaSubset d1 "accept_time" =
      Except.ok ⟨d1.cols.map (fun p =>
        (p.1, applyMask (kva.map (fun x => !isNull x)) p.2))⟩ := by
    unfold dropnaSubset
    rw [hkva]
  have hw1 : dropnaSubset w1 c =
      Except.ok ⟨w1.cols.map (fun p =>
        (p.1, applyMask (kvw.map (fun x => !isNull x)) p.2))⟩ := by
    unfold dropnaSubset
    rw [hkvw]
  obtain ⟨M, hM⟩ : ∃ merged, enrich_with_weather d1 w1 c = Except.ok merged := by
    unfold enrich_with_weather
    rw [hd1, exBind_ok, hw1, exBind_ok]
    exact ⟨_, rfl⟩
  refine ⟨M, hM, ?_⟩
  unfold enrich_with_weather at hM
  rw [hd1, exBind_ok, hw1, exBind_ok] at hM
  injection hM with hM
  rw [← hM]
  rw [namesOf_addCol]
  have hnd : namesOf (⟨d1.cols.map (fun p =>
      (p.1, applyMask (kva.map (fun x => !isNull x)) p.2))⟩ : Df) = namesOf d1 :=
    namesOf_map_snd d1 _
  have hnw : namesOf (⟨w1.cols.map (fun p =>
      (p.1, applyMask (kvw.map (fun x => !isNull x)) p.2))⟩ : Df) = namesOf w1 :=
    namesOf_map_snd w1 _
  by_cases hctw : c == "time_weather"
  · rw [if_pos hctw, if_pos hctw]
    rw [namesOf_mergeAsof, namesOf_sortByCol, namesOf_sortByCol, hnd, hnw]
  · rw [if_neg (by simpa using hctw), if_neg (by simpa using hctw)]
    rw [namesOf_renameCol, namesOf_mergeAsof, namesOf_sortByCol, namesOf_sortByCol,
      hnd, hnw]

theorem load_data_ok_inv (ddf wdf d1 w1 : Df) (c : String)
    (h : load_data true true ddf wdf = Except.ok (d1, w1, c)) :
    "accept_time" ∈ namesOf d1 ∧ c ∈ namesOf w1 ∧
      namesOf d1 = namesOf (normalizeDf ddf) ∧ namesOf w1 = namesOf (normalizeDf wdf) := by
  by_cases hacc : "accept_time" ∈ namesOf (normalizeDf ddf)
  · rcases hfind : timeCandidates.find? (fun x => decide (x ∈ namesOf (normalizeDf wdf)))
      with - | c0
    · simp [load_data, hacc, hfind] at h
    · simp only [load_data, Bool.not_true, Bool.false_eq_true, if_false, hacc, if_true,
        hfind, Except.ok.injEq, Prod.mk.injEq] at h
      obtain ⟨hd, hw, hc⟩ := h
      subst hc
      obtain ⟨hp, -⟩ := find?_first _ _ _ hfind
      have hcw : c0 ∈ namesOf (normalizeDf wdf) := of_decide_eq_true hp
      have hnd : namesOf d1 = namesOf (normalizeDf ddf) := by
        rw [← hd]
        by_cases hdt : "delivery_time" ∈
            namesOf (mapCol (normalizeDf ddf) "accept_time" toDatetimeCell)
        · rw [if_pos hdt, namesOf_mapCol, namesOf_mapCol]
        · rw [if_neg hdt, namesOf_mapCol]
      have hnw : namesOf w1 = namesOf (normalizeDf wdf) := by
        rw [← hw, namesOf_mapCol]
      exact ⟨by rw [hnd]; exact hacc, by rw [hnw]; exact hcw, hnd, hnw⟩
  · simp [load_data, hacc] at h

/-- C8 counterexample: a delivery table without a `delivery_time` column
loads successfully and survives weather enrichment, but the traffic
enrichment step — which the claim says completes without raising —
fails with a KeyError. -/
theorem c8_counterexample :
    load_data true true ⟨[("accept_time", [Cell.num 0]), ("order_id", [Cell.num 7])]⟩
        ⟨[("timestamp", [Cell.num 0])]⟩ =
      Except.ok (⟨[("accept_time", [Cell.num 0]), ("order_id", [Cell.num 7])]⟩,
        ⟨[("timestamp", [Cell.num 0])]⟩, "timestamp") ∧
    ∃ merged, enrich_with_weather
        ⟨[("accept_time", [Cell.num 0]), ("order_id", [Cell.num 7])]⟩
        ⟨[("timestamp", [Cell.num 0])]⟩ "timestamp" = Except.ok merged ∧
      ∃ e, enrich_with_traffic_and_vehicles merged = Except.error e := by
  refine ⟨by decide, ?_⟩
  obtain ⟨M, hM, hnames⟩ := enrich_with_weather_ok
    ⟨[("accept_time", [Cell.num 0]), ("order_id", [Cell.num 7])]⟩
    ⟨[("timestamp", [Cell.num 0])]⟩ "timestamp" (by decide) (by decide)
  refine ⟨M, hM, "KeyError: delivery_time", ?_⟩
  have hnot : "delivery_time" ∉ namesOf M := by
    rw [hnames]
    decide
  unfold enrich_with_traffic_and_vehicles
  rw [lookupCol_none_of_not_mem hnot]

/-- C8 (amended): the `delivery_time` column is optional for ingestion
and for weather enrichment — both complete without raising when it is
absent from the loaded tables — but traffic enrichment requires it and
fails with a KeyError when it is absent. -/
theorem c8_delivery_time_amended (ddf wdf d1 w1 : Df) (c : String)
    (h : load_data true true ddf wdf = Except.ok (d1, w1, c))
    (hnd : "delivery_time" ∉ namesOf d1)
    (hnw : "delivery_time" ∉ namesOf w1) :
    ∃ merged, enrich_with_weather d1 w1 c = Except.ok merged ∧
      ∃ e, enrich_with_traffic_and_vehicles merged = Except.error e := by
  obtain ⟨ha, hc, -, -⟩ := load_data_ok_inv ddf wdf d1 w1 c h
  obtain ⟨M, hM, hnames⟩ := enrich_with_weather_ok d1 w1 c ha hc
  have hnot : "delivery_time" ∉ namesOf M := by
    rw [hnames]
    intro hmem
    rcases List.mem_append.mp hmem with h1 | h1
    · by_cases hctw : c == "time_weather"
      · rw [if_pos hctw] at h1
        rcases List.mem_append.mp h1 with h2 | h2
        · exact hnd h2
        · exact hnw h2
      · rw [if_neg (by simpa using hctw)] at h1
        obtain ⟨n, hn, he⟩ := List.mem_map.mp h1
        by_cases hnc : n == c
        · rw [if_pos hnc] at he
          exact absurd he.symm (by decide)
        · rw [if_neg (by simpa using hnc)] at he
          subst he
          rcases List.mem_append.mp hn with h2 | h2
          · exact hnd h2
          · exact hnw h2
    · simp at h1
  refine ⟨M, hM, "KeyError: delivery_time", ?_⟩
  unfold enrich_with_traffic_and_vehicles
  rw [lookupCol_none_of_not_mem hnot]

/-- C8 witness: the amended theorem applied at the concrete tables of
the counterexample scenario (a delivery table with only `accept_time`
and `order_id`, a weather table with only `timestamp`). -/
theorem c8_witness :
    ∃ merged, enrich_with_weather
        ⟨[("accept_time", [Cell.num 0]), ("order_id", [Cell.num 7])]⟩
        ⟨[("timestamp", [Cell.num 0])]⟩ "timestamp" = Except.ok merged ∧
      ∃ e, enrich_with_traffic_and_vehicles merged = Except.error e :=
  c8_delivery_time_amended
    ⟨[("accept_time", [Cell.num 0]), ("order_id", [Cell.num 7])]⟩
    ⟨[("timestamp", [Cell.num 0])]⟩
    ⟨[("accept_time", [Cell.num 0]), ("order_id", [Cell.num 7])]⟩
    ⟨[("timestamp", [Cell.num 0])]⟩ "timestamp" (by decide) (by decide) (by decide)

/-! ### Lemmas for the asof-join claim -/

theorem lookupCol_map_pairfn (df : Df) (g : String × List Cell → List Cell) (c : String) :
    lookupCol ⟨df.cols.map (fun p => (p.1, g p))⟩ c =
      (df.cols.find? (fun p => p.1 == c)).map g := by
  unfold lookupCol
  rcases df with ⟨cols⟩
  induction cols with
  | nil => rfl
  | cons p t ih =>
    simp only [List.map_cons, List.find?]
    by_cases hp : p.1 == c
    · simp only [hp]
      rfl
    · simp only [hp]
      exact ih

theorem lookupCol_of_find? {df : Df} {c : String} {p : String × List Cell}
    (h : df.cols.find? (fun q => q.1 == c) = some p) : lookupCol df c = some p.2 := by
  unfold lookupCol
  rw [h]
  rfl

theorem find?_cols_of_not_mem {df : Df} {c : String} (h : c ∉ namesOf df) :
    df.cols.find? (fun q => q.1 == c) = none := by
  rcases hf : df.cols.find? (fun q => q.1 == c) with - | p
  · exact hf
  · obtain ⟨hp, -⟩ := find?_first _ _ _ hf
    have : c ∈ namesOf df :=
      List.mem_map.mpr ⟨p, List.mem_of_find?_eq_some hf, beq_iff_eq.mp hp⟩
    exact absurd this h

theorem lookupCol_append_cols (cols1 cols2 : List (String × List Cell)) (c : String) :
    lookupCol ⟨cols1 ++ cols2⟩ c =
      (lookupCol ⟨cols1⟩ c).or (lookupCol ⟨cols2⟩ c) := by
  unfold lookupCol
  rw [show (⟨cols1 ++ cols2⟩ : Df).cols = cols1 ++ cols2 from rfl]
  rw [List.find?_append]
  rcases h1 : cols1.find? (fun q => q.1 == c) with - | p <;>
    rcases h2 : cols2.find? (fun q => q.1 == c) with - | q <;>
    simp [h1, h2, Option.or]

theorem lookupCol_renameCol_other (df : Df) (a b c : String) (hca : c ≠ a) (hcb : c ≠ b) :
    lookupCol (renameCol df a b) c = lookupCol df c := by
  unfold lookupCol renameCol
  rcases df with ⟨cols⟩
  induction cols with
  | nil => rfl
  | cons p t ih =>
    simp only [List.map_cons, List.find?]
    by_cases hp : p.1 == a
    · rw [if_pos hp]
      have h1 : ((b, p.2).1 == c) = false := beq_eq_false_iff_ne.mpr (fun e => hcb e.symm)
      have h2 : (p.1 == c) = false := by
        rw [beq_iff_eq.mp hp]
        exact beq_eq_false_iff_ne.mpr (fun e => hca e.symm)
      rw [show ((b, p.2).1 == c) = false from h1, h2]
      simp only [Bool.false_eq_true, if_false]
      exact ih
    · rw [if_neg (by simpa using hp)]
      by_cases hc : p.1 == c
      · simp only [hc]
      · simp only [hc, Bool.false_eq_true, if_false]
        exact ih

theorem lookupCol_renameCol_new (df : Df) (a b : String) (hb : b ∉ namesOf df) :
    lookupCol (renameCol df a b) b = lookupCol df a := by
  unfold lookupCol renameCol
  rcases df with ⟨cols⟩
  induction cols with
  | nil => rfl
  | cons p t ih =>
    have hpb : p.1 ≠ b := by
      intro e
      exact hb (List.mem_map.mpr ⟨p, List.mem_cons_self _ _, e⟩)
    have hb2 : b ∉ namesOf (⟨t⟩ : Df) := by
      intro hmem
      obtain ⟨q, hq, he⟩ := List.mem_map.mp hmem
      exact hb (List.mem_map.mpr ⟨q, List.mem_cons_of_mem _ hq, he⟩)
    simp only [List.map_cons, List.find?]
    by_cases hp : p.1 == a
    · rw [if_pos hp]
      rw [show ((b, p.2).1 == b) = true from beq_self_eq_true b]
      rw [hp]
      rfl
    · rw [if_neg (by simpa using hp)]
      rw [show (p.1 == b) = false from beq_eq_false_iff_ne.mpr hpb]
      simp only [hp, Bool.false_eq_true, if_false]
      exact ih hb2

theorem map_getD_range {α : Type} (l : List α) (d : α) :
    (List.range l.length).map (fun i => l.getD i d) = l := by
  apply List.ext_get
  · simp
  · intro n h1 h2
    simp only [List.get_map, List.get_range]
    rw [List.getD_eq_get]

theorem applyMask_map_filter (l : List Cell) (f : Cell → Bool) :
    applyMask (l.map f) l = l.filter f := by
  induction l with
  | nil => rfl
  | cons x t ih =>
    have hcons : applyMask ((x :: t).map f) (x :: t) =
        (if f x then x :: applyMask (t.map f) t else applyMask (t.map f) t) := by
      unfold applyMask
      simp only [List.map_cons, List.zip_cons_cons, List.filterMap_cons]
      by_cases hf : f x
      · simp [hf]
      · simp [hf]
    rw [hcons]
    by_cases hf : f x
    · rw [if_pos hf, List.filter_cons_of_pos, ih]
      exact hf
    · rw [if_neg hf, List.filter_cons_of_neg, ih]
      simpa using hf

theorem filter_notNull_eq (l : List Cell)
    (h : ∀ x ∈ l, x = Cell.null ∨ ∃ q, x = Cell.num q) :
    l.filter (fun x => !isNull x) = (l.filterMap cellQ).map Cell.num := by
  induction l with
  | nil => rfl
  | cons x t ih =>
    have hx := h x (List.mem_cons_self _ _)
    have ht : ∀ y ∈ t, y = Cell.null ∨ ∃ q, y = Cell.num q :=
      fun y hy => h y (List.mem_cons_of_mem _ hy)
    rcases hx with hx | ⟨q, hx⟩
    · subst hx
      rw [List.filter_cons_of_neg, List.filterMap_cons_none]
      · exact ih ht
      · rfl
      · simp [isNull]
    · subst hx
      have hfm : List.filterMap cellQ (Cell.num q :: t) = q :: List.filterMap cellQ t := by
        simp [List.filterMap_cons, cellQ]
      rw [List.filter_cons_of_pos, hfm, List.map_cons, ih ht]
      simp [isNull]

theorem getD_map_lt {α β : Type} (f : α → β) {l : List α} {i : Nat} (h : i < l.length)
    (d : β) (d2 : α) : (l.map f).getD i d = f (l.getD i d2) := by
  rw [List.getD_eq_get _ d (by simpa using h), List.getD_eq_get _ d2 h]
  simp

theorem getLast?_max {l : List Nat} (h : l.Pairwise (· < ·)) {j : Nat}
    (hj : l.getLast? = some j) : ∀ x ∈ l, x ≤ j := by
  induction l with
  | nil => simp at hj
  | cons a t ih =>
    cases t with
    | nil =>
      simp at hj
      subst hj
      intro x hx
      simp at hx
      omega
    | cons b t2 =>
      rw [List.getLast?_cons_cons] at hj
      have hmem : j ∈ b :: t2 := by
        have hj2 : j ∈ (b :: t2).getLast? := by
          rw [hj]
          rfl
        obtain ⟨hne, he⟩ := List.mem_getLast?_eq_getLast hj2
        rw [he]
        exact List.getLast_mem hne
      intro x hx
      rcases List.mem_cons.mp hx with hx | hx
      · subst hx
        have := (List.pairwise_cons.mp h).1 j hmem
        omega
      · exact ih (List.pairwise_cons.mp h).2 hj x hx

theorem lastIdxLE_some_spec {t : ℚ} {keys : List ℚ} (hs : keys.Pairwise (· ≤ ·)) {j : Nat}
    (h : lastIdxLE t keys = some j) :
    j < keys.length ∧ keys.getD j 0 ≤ t ∧
      ∀ j2, j2 < keys.length → keys.getD j2 0 ≤ t → keys.getD j2 0 ≤ keys.getD j 0 := by
  unfold lastIdxLE at h
  have hSsorted : ((List.range keys.length).filter
      (fun i => decide (keys.getD i 0 ≤ t))).Pairwise (· < ·) :=
    (List.pairwise_lt_range _).sublist (List.filter_sublist _)
  have hjmem : j ∈ (List.range keys.length).filter (fun i => decide (keys.getD i 0 ≤ t)) := by
    have hj2 : j ∈ ((List.range keys.length).filter
        (fun i => decide (keys.getD i 0 ≤ t))).getLast? := by
      rw [h]
      rfl
    obtain ⟨hne, he⟩ := List.mem_getLast?_eq_getLast hj2
    rw [he]
    exact List.getLast_mem hne
  obtain ⟨hjr, hjp⟩ := List.mem_filter.mp hjmem
  have hjlt : j < keys.length := List.mem_range.mp hjr
  refine ⟨hjlt, of_decide_eq_true hjp, ?_⟩
  intro j2 hj2lt hj2le
  have hj2mem : j2 ∈ (List.range keys.length).filter
      (fun i => decide (keys.getD i 0 ≤ t)) :=
    List.mem_filter.mpr ⟨List.mem_range.mpr hj2lt, decide_eq_true hj2le⟩
  have hle : j2 ≤ j := getLast?_max hSsorted h j2 hj2mem
  rcases Nat.lt_or_ge j2 j with hlt | hge
  · have := List.pairwise_iff_get.mp hs ⟨j2, hj2lt⟩ ⟨j, hjlt⟩ hlt
    rw [List.getD_eq_get _ _ hj2lt, List.getD_eq_get _ _ hjlt]
    exact this
  · have hej : j2 = j := Nat.le_antisymm hle hge
    rw [hej]

theorem lastIdxLE_none_spec {t : ℚ} {keys : List ℚ}
    (h : lastIdxLE t keys = none) :
    ∀ j2, j2 < keys.length → ¬ keys.getD j2 0 ≤ t := by
  unfold lastIdxLE at h
  have hS : (List.range keys.length).filter (fun i => decide (keys.getD i 0 ≤ t)) = [] :=
    List.getLast?_eq_none_iff.mp h
  intro j2 hj2 hle
  have : j2 ∈ (List.range keys.length).filter (fun i => decide (keys.getD i 0 ≤ t)) :=
    List.mem_filter.mpr ⟨List.mem_range.mpr hj2, decide_eq_true hle⟩
  rw [hS] at this
  exact List.not_mem_nil _ this

theorem lookupCol_eq_find? (df : Df) (c : String) {v : List Cell}
    (h : lookupCol df c = some v) :
    ∃ p, df.cols.find? (fun q => q.1 == c) = some p ∧ p.2 = v := by
  unfold lookupCol at h
  obtain ⟨p, hp, hv⟩ := Option.map_eq_some'.mp h
  exact ⟨p, hp, hv⟩

theorem lookupCol_dropna (df : Df) (c c2 : String) {kv v : List Cell} {out : Df}
    (hc : lookupCol df c = some kv) (h2 : lookupCol df c2 = some v)
    (hout : dropnaSubset df c = Except.ok out) :
    lookupCol out c2 = some (applyMask (kv.map (fun x => !isNull x)) v) := by
  unfold dropnaSubset at hout
  rw [hc] at hout
  injection hout with hout
  rw [← hout]
  obtain ⟨p, hp, hv⟩ := lookupCol_eq_find? df c2 h2
  rw [show (⟨df.cols.map (fun p =>
      (p.1, applyMask (kv.map (fun x => !isNull x)) p.2))⟩ : Df) =
    ⟨df.cols.map (fun p => (p.1, (fun q => applyMask (kv.map (fun x => !isNull x)) q.2) p))⟩
    from rfl]
  rw [lookupCol_map_pairfn df _ c2, hp, ← hv]
  rfl

theorem lookupCol_sortByCol (df : Df) (c c2 : String) {v : List Cell}
    (h : lookupCol df c2 = some v) :
    lookupCol (sortByCol df c) c2 = some ((List.insertionSort (fun i j =>
        cellQD ((colValsD df c).getD i Cell.null) ≤ cellQD ((colValsD df c).getD j Cell.null))
      (List.range (colValsD df c).length)).map (fun i => v.getD i Cell.null)) := by
  obtain ⟨p, hp, hv⟩ := lookupCol_eq_find? df c2 h
  unfold sortByCol
  rw [lookupCol_map_pairfn df _ c2, hp]
  rw [← hv]
  rfl

theorem lookupCol_mergeAsof_left (l r : Df) (lk rk c : String) {v : List Cell}
    (h : lookupCol l c = some v) : lookupCol (mergeAsofDf l r lk rk) c = some v := by
  unfold mergeAsofDf
  rw [lookupCol_append_cols]
  rw [show lookupCol (⟨l.cols⟩ : Df) c = some v from h]
  rfl

theorem lookupCol_mergeAsof_right (l r : Df) (lk rk c : String) (hnl : c ∉ namesOf l)
    {p : String × List Cell} (hfind : r.cols.find? (fun q => q.1 == c) = some p) :
    lookupCol (mergeAsofDf l r lk rk) c =
      some ((((colValsD l lk).map cellQD).map
          (fun t => lastIdxLE t ((colValsD r rk).map cellQD))).map
        (fun m => match m with
          | some j => p.2.getD j Cell.null
          | none => Cell.null)) := by
  unfold mergeAsofDf
  rw [lookupCol_append_cols]
  rw [show lookupCol (⟨l.cols⟩ : Df) c = none from by
    unfold lookupCol
    rw [find?_cols_of_not_mem hnl]
    rfl]
  rw [show (⟨r.cols.map (fun q => (q.1, (((colValsD l lk).map cellQD).map
      (fun t => lastIdxLE t ((colValsD r rk).map cellQD))).map
        (fun m => match m with
          | some j => q.2.getD j Cell.null
          | none => Cell.null)))⟩ : Df) =
    ⟨r.cols.map (fun q => (q.1, (fun q2 : String × List Cell =>
      (((colValsD l lk).map cellQD).map
        (fun t => lastIdxLE t ((colValsD r rk).map cellQD))).map
        (fun m => match m with
          | some j => q2.2.getD j Cell.null
          | none => Cell.null)) q))⟩ from rfl]
  rw [lookupCol_map_pairfn r _ c, hfind]
  rfl

theorem lookupCol_addCol_pres {df : Df} {c2 : String} {v : List Cell}
    (h : lookupCol df c2 = some v) (c : String) (vals : List Cell) :
    lookupCol (addCol df c vals) c2 = some v := by
  unfold addCol
  rw [lookupCol_append_cols]
  rw [show lookupCol (⟨df.cols⟩ : Df) c2 = some v from h]
  rfl

theorem sorted_map_perm (kv : List Cell) (r : Nat → Nat → Prop) [DecidableRel r] :
    ((List.insertionSort r (List.range kv.length)).map
      (fun i => kv.getD i Cell.null)).Perm kv := by
  have hp : (List.insertionSort r (List.range kv.length)).Perm (List.range kv.length) :=
    List.perm_insertionSort r _
  have h2 := hp.map (fun i => kv.getD i Cell.null)
  rw [map_getD_range] at h2
  exact h2

theorem rkeys_sorted (kv : List Cell) :
    (((List.insertionSort
        (fun i j => cellQD (kv.getD i Cell.null) ≤ cellQD (kv.getD j Cell.null))
        (List.range kv.length)).map (fun i => kv.getD i Cell.null)).map cellQD).Pairwise
      (· ≤ ·) := by
  rw [List.map_map]
  have hs : (List.insertionSort
      (fun i j => cellQD (kv.getD i Cell.null) ≤ cellQD (kv.getD j Cell.null))
      (List.range kv.length)).Pairwise
      (fun i j => cellQD (kv.getD i Cell.null) ≤ cellQD (kv.getD j Cell.null)) := by
    haveI ht : IsTotal Nat
        (fun i j => cellQD (kv.getD i Cell.null) ≤ cellQD (kv.getD j Cell.null)) :=
      ⟨fun a b => le_total _ _⟩
    haveI htr : IsTrans Nat
        (fun i j => cellQD (kv.getD i Cell.null) ≤ cellQD (kv.getD j Cell.null)) :=
      ⟨fun a b c hab hbc => le_trans hab hbc⟩
    exact List.sorted_insertionSort _ _
  exact hs.map _ (fun a b hab => hab)


theorem backward_match (W : List ℚ) (wS : List Cell) (t : ℚ)
    (hperm : wS.Perm (W.map Cell.num))
    (hsorted : (wS.map cellQD).Pairwise (· ≤ ·)) :
    (∀ j, lastIdxLE t (wS.map cellQD) = some j →
      ∃ w, wS.getD j Cell.null = Cell.num w ∧ w ∈ W ∧ w ≤ t ∧
        ∀ u ∈ W, u ≤ t → u ≤ w) ∧
    (lastIdxLE t (wS.map cellQD) = none → ∀ u ∈ W, ¬ u ≤ t) := by
  have hidxW : ∀ u ∈ W, ∃ j2, j2 < wS.length ∧ wS.getD j2 Cell.null = Cell.num u := by
    intro u hu
    have hmem : Cell.num u ∈ wS := by
      rw [hperm.mem_iff]
      exact List.mem_map.mpr ⟨u, hu, rfl⟩
    obtain ⟨⟨j2, hj2⟩, hg⟩ := List.mem_iff_get.mp hmem
    exact ⟨j2, hj2, by rw [List.getD_eq_get _ _ hj2, hg]⟩
  constructor
  · intro j hj
    obtain ⟨hjlt, hjle, hmax⟩ := lastIdxLE_some_spec hsorted hj
    rw [List.length_map] at hjlt
    have hjcell : wS.getD j Cell.null ∈ wS := by
      rw [List.getD_eq_get _ _ hjlt]
      exact List.get_mem _ _ _
    obtain ⟨w, hw, he⟩ := List.mem_map.mp (hperm.mem_iff.mp hjcell)
    have hkey : (wS.map cellQD).getD j 0 = w := by
      rw [getD_map_lt cellQD hjlt 0 Cell.null, ← he]
      rfl
    refine ⟨w, he.symm, hw, by rw [hkey] at hjle; exact hjle, ?_⟩
    intro u huW hut
    obtain ⟨j2, hj2lt, hj2cell⟩ := hidxW u huW
    have hkey2 : (wS.map cellQD).getD j2 0 = u := by
      rw [getD_map_lt cellQD hj2lt 0 Cell.null, hj2cell]
      rfl
    have h5 := hmax j2 (by rw [List.length_map]; exact hj2lt) (by rw [hkey2]; exact hut)
    rw [hkey2, hkey] at h5
    exact h5
  · intro hj u huW hut
    obtain ⟨j2, hj2lt, hj2cell⟩ := hidxW u huW
    have hkey2 : (wS.map cellQD).getD j2 0 = u := by
      rw [getD_map_lt cellQD hj2lt 0 Cell.null, hj2cell]
      rfl
    have h5 := lastIdxLE_none_spec hj j2 (by rw [List.length_map]; exact hj2lt)
    rw [hkey2] at h5
    exact h5 hut

/-- C1: for every delivery row whose acceptance time parsed
successfully, `enrich_with_weather` matches it to the weather row whose
parsed non-null timestamp is the greatest value ≤ that row's acceptance
time; if no weather timestamp qualifies, the row's `time_weather` and
every weather-measurement field are null.  Rows with unparseable
acceptance time are excluded from the join (the surviving acceptance
times are exactly the parsed ones, up to the sort's reordering), and
weather rows with unparseable timestamp never serve as matches (every
matched timestamp comes from the parsed non-null ones). -/
theorem c1_enrich_with_weather_asof_join
    (ddf wdf merged : Df) (wcol : String)
    (hA : ∀ x ∈ colValsD ddf "accept_time", x = Cell.null ∨ ∃ q, x = Cell.num q)
    (hW : ∀ x ∈ colValsD wdf wcol, x = Cell.null ∨ ∃ q, x = Cell.num q)
    (hacc : "accept_time" ∈ namesOf ddf)
    (hwc : wcol ∈ namesOf wdf)
    (hne : wcol ≠ "accept_time")
    (hndd : wcol ∉ namesOf ddf)
    (htwd : "time_weather" ∉ namesOf ddf)
    (htww : "time_weather" ∈ namesOf wdf → wcol = "time_weather")
    (h : enrich_with_weather ddf wdf wcol = Except.ok merged) :
    (colValsD merged "accept_time").Perm
        (((colValsD ddf "accept_time").filterMap cellQ).map Cell.num) ∧
    ∀ i t, (colValsD merged "accept_time").getD i Cell.null = Cell.num t →
      (∃ w, (colValsD merged "time_weather").getD i Cell.null = Cell.num w ∧
          w ∈ (colValsD wdf wcol).filterMap cellQ ∧ w ≤ t ∧
          ∀ u ∈ (colValsD wdf wcol).filterMap cellQ, u ≤ t → u ≤ w) ∨
      ((colValsD merged "time_weather").getD i Cell.null = Cell.null ∧
        (∀ u ∈ (colValsD wdf wcol).filterMap cellQ, ¬ u ≤ t) ∧
        ∀ cn ∈ namesOf wdf, cn ∉ namesOf ddf → cn ≠ wcol → cn ≠ "Weather_Label" →
          (colValsD merged cn).getD i Cell.null = Cell.null) := by
  obtain ⟨kva, hkva⟩ : ∃ kv, lookupCol ddf "accept_time" = some kv := by
    rcases hf : lookupCol ddf "accept_time" with - | kv
    · rw [← lookupCol_isSome_iff, hf] at hacc
      exact Bool.noConfusion hacc
    · exact ⟨kv, rfl⟩
  obtain ⟨kvw, hkvw⟩ : ∃ kv, lookupCol wdf wcol = some kv := by
    rcases hf : lookupCol wdf wcol with - | kv
    · rw [← lookupCol_isSome_iff, hf] at hwc
      exact Bool.noConfusion hwc
    · exact ⟨kv, rfl⟩
  have hcvA : colValsD ddf "accept_time" = kva := by
    unfold colValsD
    rw [hkva]
    rfl
  have hcvW : colValsD wdf wcol = kvw := by
    unfold colValsD
    rw [hkvw]
    rfl
  have hKA : applyMask (kva.map (fun x => !isNull x)) kva =
      (kva.filterMap cellQ).map Cell.num := by
    rw [applyMask_map_filter]
    exact filter_notNull_eq kva (hcvA ▸ hA)
  have hKW : applyMask (kvw.map (fun x => !isNull x)) kvw =
      (kvw.filterMap cellQ).map Cell.num := by
    rw [applyMask_map_filter]
    exact filter_notNull_eq kvw (hcvW ▸ hW)
  obtain ⟨dclean, hd1⟩ : ∃ d, dropnaSubset ddf "accept_time" = Except.ok d := by
    unfold dropnaSubset
    rw [hkva]
    exact ⟨_, rfl⟩
  obtain ⟨wclean, hw1⟩ : ∃ d, dropnaSubset wdf wcol = Except.ok d := by
    unfold dropnaSubset
    rw [hkvw]
    exact ⟨_, rfl⟩
  have hlda : lookupCol dclean "accept_time" =
      some ((kva.filterMap cellQ).map Cell.num) := by
    have h2 := lookupCol_dropna ddf "accept_time" "accept_time" hkva hkva hd1
    rw [hKA] at h2
    exact h2
  have hldw : lookupCol wclean wcol =
      some ((kvw.filterMap cellQ).map Cell.num) := by
    have h2 := lookupCol_dropna wdf wcol wcol hkvw hkvw hw1
    rw [hKW] at h2
    exact h2
  have hcvdA : colValsD dclean "accept_time" = (kva.filterMap cellQ).map Cell.num := by
    unfold colValsD
    rw [hlda]
    rfl
  have hcvdW : colValsD wclean wcol = (kvw.filterMap cellQ).map Cell.num := by
    unfold colValsD
    rw [hldw]
    rfl
  obtain ⟨dsorted, hdsdef⟩ : ∃ d, sortByCol dclean "accept_time" = d := ⟨_, rfl⟩
  obtain ⟨wsorted, hwsdef⟩ : ∃ d, sortByCol wclean wcol = d := ⟨_, rfl⟩
  have h2a := lookupCol_sortByCol dclean "accept_time" "accept_time" hlda
  rw [hcvdA, hdsdef] at h2a
  rcases hlsa : lookupCol dsorted "accept_time" with - | dS
  · rw [hlsa] at h2a
    exact Option.noConfusion h2a
  rw [hlsa] at h2a
  injection h2a with hdSdef
  have h2w := lookupCol_sortByCol wclean wcol wcol hldw
  rw [hcvdW, hwsdef] at h2w
  rcases hlsw : lookupCol wsorted wcol with - | wS
  · rw [hlsw] at h2w
    exact Option.noConfusion h2w
  rw [hlsw] at h2w
  injection h2w with hwSdef
  have hcvsA : colValsD dsorted "accept_time" = dS := by
    unfold colValsD
    rw [hlsa]
    rfl
  have hcvsW : colValsD wsorted wcol = wS := by
    unfold colValsD
    rw [hlsw]
    rfl
  have hm0a : lookupCol (mergeAsofDf dsorted wsorted "accept_time" wcol) "accept_time" = some dS :=
    lookupCol_mergeAsof_left dsorted wsorted "accept_time" wcol "accept_time" hlsa
  obtain ⟨pw, hpwf, hpw2⟩ := lookupCol_eq_find? wsorted wcol hlsw
  have hnls : wcol ∉ namesOf dsorted := by
    rw [← hdsdef, namesOf_sortByCol, namesOf_dropna hd1]
    exact hndd
  have hm0w : lookupCol (mergeAsofDf dsorted wsorted "accept_time" wcol) wcol = some (((dS.map cellQD).map (fun u => lastIdxLE u (wS.map cellQD))).map (fun m => match m with | some j => wS.getD j Cell.null | none => Cell.null)) := by
    have h2 := lookupCol_mergeAsof_right dsorted wsorted "accept_time" wcol wcol hnls hpwf
    rw [hcvsA, hcvsW, hpw2] at h2
    exact h2
  unfold enrich_with_weather at h
  rw [hd1, exBind_ok, hw1, exBind_ok] at h
  injection h with h
  rw [hdsdef, hwsdef] at h
  have hACC : colValsD merged "accept_time" = dS := by
    rw [← h]
    unfold colValsD
    by_cases hbc : wcol = "time_weather"
    · rw [if_pos (beq_iff_eq.mpr hbc)]
      rw [lookupCol_addCol_pres hm0a]
      rfl
    · rw [if_neg (fun hc => hbc (beq_iff_eq.mp hc))]
      have hra : lookupCol (renameCol (mergeAsofDf dsorted wsorted "accept_time" wcol) wcol "time_weather") "accept_time" =
          some dS := by
        rw [lookupCol_renameCol_other (mergeAsofDf dsorted wsorted "accept_time" wcol) wcol "time_weather" "accept_time"
          (fun e => hne e.symm) (by decide)]
        exact hm0a
      rw [lookupCol_addCol_pres hra]
      rfl
  have hTW : colValsD merged "time_weather" = ((dS.map cellQD).map (fun u => lastIdxLE u (wS.map cellQD))).map (fun m => match m with | some j => wS.getD j Cell.null | none => Cell.null) := by
    rw [← h]
    unfold colValsD
    by_cases hbc : wcol = "time_weather"
    · rw [if_pos (beq_iff_eq.mpr hbc)]
      have h2 : lookupCol (mergeAsofDf dsorted wsorted "accept_time" wcol) "time_weather" = some (((dS.map cellQD).map (fun u => lastIdxLE u (wS.map cellQD))).map (fun m => match m with | some j => wS.getD j Cell.null | none => Cell.null)) := by
        rw [← hbc]
        exact hm0w
      rw [lookupCol_addCol_pres h2]
      rfl
    · rw [if_neg (fun hc => hbc (beq_iff_eq.mp hc))]
      have hnm0 : "time_weather" ∉ namesOf (mergeAsofDf dsorted wsorted "accept_time" wcol) := by
        rw [namesOf_mergeAsof, ← hdsdef, namesOf_sortByCol, namesOf_dropna hd1,
          ← hwsdef, namesOf_sortByCol, namesOf_dropna hw1]
        intro hmem
        rcases List.mem_append.mp hmem with hm1 | hm2
        · exact htwd hm1
        · exact hbc (htww hm2)
      have h2 : lookupCol (renameCol (mergeAsofDf dsorted wsorted "accept_time" wcol) wcol "time_weather") "time_weather" =
          some (((dS.map cellQD).map (fun u => lastIdxLE u (wS.map cellQD))).map (fun m => match m with | some j => wS.getD j Cell.null | none => Cell.null)) := by
        rw [lookupCol_renameCol_new (mergeAsofDf dsorted wsorted "accept_time" wcol) wcol "time_weather" hnm0]
        exact hm0w
      rw [lookupCol_addCol_pres h2]
      rfl
  have hCN : ∀ cn, cn ∈ namesOf wdf → cn ∉ namesOf ddf → cn ≠ wcol →
      ∃ vS : List Cell, colValsD merged cn = ((dS.map cellQD).map (fun u => lastIdxLE u (wS.map cellQD))).map (fun m => match m with | some j => vS.getD j Cell.null | none => Cell.null) := by
    intro cn hcw hcd hcwcol
    obtain ⟨vcn, hvcn⟩ : ∃ v, lookupCol wdf cn = some v := by
      rcases hf : lookupCol wdf cn with - | v
      · rw [← lookupCol_isSome_iff, hf] at hcw
        exact Bool.noConfusion hcw
      · exact ⟨v, rfl⟩
    have hlv := lookupCol_dropna wdf wcol cn hkvw hvcn hw1
    have h2c := lookupCol_sortByCol wclean wcol cn hlv
    rw [hwsdef] at h2c
    rcases hlvs : lookupCol wsorted cn with - | vS0
    · rw [hlvs] at h2c
      exact Option.noConfusion h2c
    obtain ⟨pc, hpcf, hpc2⟩ := lookupCol_eq_find? wsorted cn hlvs
    have hnls2 : cn ∉ namesOf dsorted := by
      rw [← hdsdef, namesOf_sortByCol, namesOf_dropna hd1]
      exact hcd
    have hm0c : lookupCol (mergeAsofDf dsorted wsorted "accept_time" wcol) cn = some (((dS.map cellQD).map (fun u => lastIdxLE u (wS.map cellQD))).map (fun m => match m with | some j => vS0.getD j Cell.null | none => Cell.null)) := by
      have h2 := lookupCol_mergeAsof_right dsorted wsorted "accept_time" wcol cn hnls2 hpcf
      rw [hcvsA, hcvsW, hpc2] at h2
      exact h2
    refine ⟨vS0, ?_⟩
    rw [← h]
    unfold colValsD
    by_cases hbc : wcol = "time_weather"
    · rw [if_pos (beq_iff_eq.mpr hbc)]
      rw [lookupCol_addCol_pres hm0c]
      rfl
    · rw [if_neg (fun hc => hbc (beq_iff_eq.mp hc))]
      have hcntw : cn ≠ "time_weather" := by
        intro e
        rw [e] at hcw
        exact hbc (htww hcw)
      have h2 : lookupCol (renameCol (mergeAsofDf dsorted wsorted "accept_time" wcol) wcol "time_weather") cn =
          some (((dS.map cellQD).map (fun u => lastIdxLE u (wS.map cellQD))).map (fun m => match m with | some j => vS0.getD j Cell.null | none => Cell.null)) := by
        rw [lookupCol_renameCol_other (mergeAsofDf dsorted wsorted "accept_time" wcol) wcol "time_weather" cn hcwcol hcntw]
        exact hm0c
      rw [lookupCol_addCol_pres h2]
      rfl
  constructor
  · rw [hACC, hcvA, hdSdef]
    exact sorted_map_perm ((kva.filterMap cellQ).map Cell.num) _
  · intro i t hit
    rw [hACC] at hit
    have hiDS : i < dS.length := lt_length_of_getD_num hit
    have hlk : (dS.map cellQD).getD i 0 = t := by
      rw [getD_map_lt cellQD hiDS 0 Cell.null, hit]
      rfl
    have hiM : i < ((dS.map cellQD).map (fun u => lastIdxLE u (wS.map cellQD))).length := by
      simp only [List.length_map]
      simp only [List.length_map] at hiDS
      exact hiDS
    have hgM : ((dS.map cellQD).map (fun u => lastIdxLE u (wS.map cellQD))).getD i none = lastIdxLE t (wS.map cellQD) := by
      have h3 : i < (dS.map cellQD).length := by
        simp only [List.length_map]
        simp only [List.length_map] at hiDS
        exact hiDS
      rw [getD_map_lt (fun u => lastIdxLE u (wS.map cellQD)) h3 none 0]
      simp only [hlk]
    have hTWi : (colValsD merged "time_weather").getD i Cell.null =
        (fun m => match m with | some j => wS.getD j Cell.null | none => Cell.null) (lastIdxLE t (wS.map cellQD)) := by
      rw [hTW]
      rw [getD_map_lt (fun m => match m with | some j => wS.getD j Cell.null | none => Cell.null) hiM Cell.null none, hgM]
    have hperm2 : wS.Perm ((kvw.filterMap cellQ).map Cell.num) := by
      rw [hwSdef]
      exact sorted_map_perm ((kvw.filterMap cellQ).map Cell.num) _
    have hsorted2 : (wS.map cellQD).Pairwise (· ≤ ·) := by
      rw [hwSdef]
      exact rkeys_sorted ((kvw.filterMap cellQ).map Cell.num)
    obtain ⟨hsome, hnone⟩ := backward_match (kvw.filterMap cellQ) wS t hperm2 hsorted2
    rcases hm : lastIdxLE t (wS.map cellQD) with - | j
    · right
      refine ⟨?_, ?_, ?_⟩
      · rw [hTWi, hm]
      · rw [hcvW]
        exact hnone hm
      · intro cn hcw hcd hcwcol hcnlbl
        obtain ⟨vS, hvS⟩ := hCN cn hcw hcd hcwcol
        rw [hvS]
        rw [getD_map_lt (fun m => match m with | some j => vS.getD j Cell.null | none => Cell.null) hiM Cell.null none, hgM, hm]
    · obtain ⟨w, hwcell, hwW, hwle, hwmax⟩ := hsome j hm
      left
      refine ⟨w, ?_, ?_, hwle, ?_⟩
      · rw [hTWi, hm]
        exact hwcell
      · rw [hcvW]
        exact hwW
      · rw [hcvW]
        exact hwmax

theorem c1_witness :
    (colValsD ⟨[("accept_time", [Cell.num 100]), ("time_weather", [Cell.num 50]),
        ("Weather_Label", [Cell.str "Cloudy"])]⟩ "accept_time").Perm
      (((colValsD ⟨[("accept_time", [Cell.num 100])]⟩ "accept_time").filterMap cellQ).map
        Cell.num) :=
  (c1_enrich_with_weather_asof_join ⟨[("accept_time", [Cell.num 100])]⟩
    ⟨[("time_weather", [Cell.num 50])]⟩
    ⟨[("accept_time", [Cell.num 100]), ("time_weather", [Cell.num 50]),
      ("Weather_Label", [Cell.str "Cloudy"])]⟩ "time_weather"
    (by
      intro x hx
      refine Or.inr ⟨100, ?_⟩
      rw [show colValsD (⟨[("accept_time", [Cell.num 100])]⟩ : Df) "accept_time" =
        [Cell.num 100] from rfl] at hx
      rw [List.mem_singleton] at hx
      exact hx)
    (by
      intro x hx
      refine Or.inr ⟨50, ?_⟩
      rw [show colValsD (⟨[("time_weather", [Cell.num 50])]⟩ : Df) "time_weather" =
        [Cell.num 50] from rfl] at hx
      rw [List.mem_singleton] at hx
      exact hx)
    (by decide) (by decide) (by decide) (by decide) (by decide)
    (fun _ => rfl) (by rfl)).1
